import Mathlib

/-!
Verification development for the Q3DScene scene-geometry manager and the
SurfaceObject mesh builder of the qtdatavis3d repository.

The C++ state of `Q3DScene` / `Q3DScenePrivate` (q3dscene.cpp) is embedded as
the structure `SceneState`; each C++ setter becomes a pure function
`SceneState → SceneState × List Signal` returning the new state together with
the list of Qt signals emitted by the call, in emission order.

Modelling conventions:
- `QRect`, `QPoint`, `QSize` use mathematical integers; Qt stores the
  corners `x1 = x, x2 = x + w - 1` internally, which the transliterated
  `QRectI.intersected` below reflects.
- `float` values (the device pixel ratio, the 0.2f sub-viewport ratio) are
  carried as their exact rational values.  A C++ expression `(int)(v * p)`
  with integer `v` and float `p` truncates toward zero; `scaleTrunc` computes
  that truncation exactly over ℤ (the rounding of the float product itself is
  neglected, the factors in this codebase being exact or far from integer
  boundaries).
-/

/-- Integer rectangle in Qt's (x, y, width, height) representation. -/
structure QRectI where
  x : Int
  y : Int
  w : Int
  h : Int
deriving DecidableEq, Repr

/-- Integer point, as QPoint. -/
structure QPointI where
  x : Int
  y : Int
deriving DecidableEq, Repr

/-- Integer size, as QSize. -/
structure QSizeI where
  w : Int
  h : Int
deriving DecidableEq, Repr

namespace QRectI

/-- Qt's internal right edge `x2 = x1 + w - 1`. -/
def x2 (r : QRectI) : Int := r.x + r.w - 1

/-- Qt's internal bottom edge `y2 = y1 + h - 1`. -/
def y2 (r : QRectI) : Int := r.y + r.h - 1

/-- QRect::isNull: both width and height are zero. -/
def isNull (r : QRectI) : Bool := r.w == 0 && r.h == 0

/-- The default-constructed QRect(): x = y = 0, w = h = 0. -/
def nullRect : QRectI := ⟨0, 0, 0, 0⟩

/-- QRect::intersected (operator&), transliterated from Qt's qrect.cpp:
null operands yield the null rect; a negative-width (-height) span is
treated as the single column (row) at its origin; disjoint spans yield the
null rect; otherwise the overlap of the corner spans. -/
def intersected (a b : QRectI) : QRectI :=
  if a.isNull || b.isNull then nullRect
  else
    let l1 := a.x
    let r1 := if a.x2 - a.x + 1 < 0 then a.x else a.x2
    let l2 := b.x
    let r2 := if b.x2 - b.x + 1 < 0 then b.x else b.x2
    if l1 > r2 || l2 > r1 then nullRect
    else
      let t1 := a.y
      let b1 := if a.y2 - a.y + 1 < 0 then a.y else a.y2
      let t2 := b.y
      let b2 := if b.y2 - b.y + 1 < 0 then b.y else b.y2
      if t1 > b2 || t2 > b1 then nullRect
      else
        ⟨max l1 l2, max t1 t2,
         min r1 r2 - max l1 l2 + 1, min b1 b2 - max t1 t2 + 1⟩

end QRectI

/-- Exact value of `(int)(v * p)` for an integer `v` and a float of exact
rational value `p`: truncation toward zero of `v * p`.  `Int.tdiv` is
truncating division and a rational's denominator is positive. -/
def scaleTrunc (v : Int) (p : ℚ) : Int := (v * p.num).tdiv p.den

/-- Exact rational value of the float literal `0.2f`
(`smallerViewPortRatio` in Q3DScenePrivate::calculateSubViewports):
0.2 rounded to 24-bit significand is 13421773 * 2^-26. -/
def smallerViewPortRatio : ℚ := mkRat 13421773 67108864

/-- The dirty-flag bit field of Q3DScenePrivate (`m_changeTracker`),
one flag per synchronizable scene attribute. -/
structure Q3DSceneChangeBitField where
  windowSizeChanged : Bool
  viewportChanged : Bool
  subViewportOrderChanged : Bool
  primarySubViewportChanged : Bool
  secondarySubViewportChanged : Bool
  selectionQueryPositionChanged : Bool
  cameraChanged : Bool
  lightChanged : Bool
  slicingActivatedChanged : Bool
  devicePixelRatioChanged : Bool
deriving DecidableEq, Repr

/-- The change tracker with every flag cleared. -/
def allFlagsClear : Q3DSceneChangeBitField :=
  ⟨false, false, false, false, false, false, false, false, false, false⟩

/-- The scene-geometry state held by Q3DScene / Q3DScenePrivate: window
size, viewport and sub-viewport rectangles, their derived GL rectangles,
ordering / slicing flags, device pixel ratio, selection query position,
the change tracker and the scene dirty bit.  The camera and light object
pointers are modelled separately (`SceneObjects`): the scene-rectangle
operations never read them. -/
structure SceneState where
  windowSize : QSizeI
  viewport : QRectI
  primarySubViewport : QRectI
  secondarySubViewport : QRectI
  glViewport : QRectI
  glPrimarySubViewport : QRectI
  glSecondarySubViewport : QRectI
  isSecondarySubviewOnTop : Bool
  devicePixelRatio : ℚ
  isSlicingActive : Bool
  selectionQueryPosition : QPointI
  changeTracker : Q3DSceneChangeBitField
  sceneDirty : Bool
deriving DecidableEq, Repr

/-- The Qt signals a scene setter can emit, in emission order. -/
inductive Signal where
  | viewportChanged (r : QRectI)
  | primarySubViewportChanged (r : QRectI)
  | secondarySubViewportChanged (r : QRectI)
  | selectionQueryPositionChanged (p : QPointI)
  | slicingActiveChanged (b : Bool)
  | secondarySubviewOnTopChanged (b : Bool)
  | devicePixelRatioChanged (q : ℚ)
  | needRender
deriving DecidableEq, Repr

/-- Q3DScenePrivate::updateGLSubViewports: recompute the device-pixel-scaled,
Y-flipped GL rectangles of the two sub-viewports.  Note the asymmetry of the
source: the primary GL x adds the viewport x offset, the secondary GL x does
not; both GL y terms add the viewport y offset. -/
def updateGLSubViewports (s : SceneState) : SceneState :=
  let p := s.primarySubViewport
  let sec := s.secondarySubViewport
  let v := s.viewport
  let dpr := s.devicePixelRatio
  let hwin := s.windowSize.h
  { s with
    glPrimarySubViewport :=
      ⟨scaleTrunc (p.x + v.x) dpr,
       scaleTrunc (hwin - (p.y + v.y + p.h)) dpr,
       scaleTrunc p.w dpr,
       scaleTrunc p.h dpr⟩,
    glSecondarySubViewport :=
      ⟨scaleTrunc sec.x dpr,
       scaleTrunc (hwin - (sec.y + v.y + sec.h)) dpr,
       scaleTrunc sec.w dpr,
       scaleTrunc sec.h dpr⟩ }

/-- Q3DScenePrivate::updateGLViewport: recompute the GL viewport, mark the
viewport changed, refresh the GL sub-viewports and emit viewportChanged. -/
def updateGLViewport (s : SceneState) : SceneState × List Signal :=
  let v := s.viewport
  let dpr := s.devicePixelRatio
  let hwin := s.windowSize.h
  let s1 := { s with
    glViewport :=
      ⟨scaleTrunc v.x dpr,
       scaleTrunc (hwin - (v.y + v.h)) dpr,
       scaleTrunc v.w dpr,
       scaleTrunc v.h dpr⟩,
    changeTracker := { s.changeTracker with viewportChanged := true },
    sceneDirty := true }
  (updateGLSubViewports s1, [Signal.viewportChanged s.viewport])

/-- Q3DScene::setPrimarySubViewport: clip the argument to the
(0,0)-anchored viewport box by rectangle intersection; store, mark dirty
and signal only when the clipped value differs from the stored one. -/
def setPrimarySubViewport (s : SceneState) (r : QRectI) : SceneState × List Signal :=
  let clipRect : QRectI := ⟨0, 0, s.viewport.w, s.viewport.h⟩
  let iv := QRectI.intersected r clipRect
  if s.primarySubViewport ≠ iv then
    let s1 := updateGLSubViewports { s with primarySubViewport := iv }
    ({ s1 with
        changeTracker := { s1.changeTracker with primarySubViewportChanged := true },
        sceneDirty := true },
     [Signal.primarySubViewportChanged iv, Signal.needRender])
  else (s, [])

/-- Q3DScene::setSecondarySubViewport, same shape as the primary setter. -/
def setSecondarySubViewport (s : SceneState) (r : QRectI) : SceneState × List Signal :=
  let clipRect : QRectI := ⟨0, 0, s.viewport.w, s.viewport.h⟩
  let iv := QRectI.intersected r clipRect
  if s.secondarySubViewport ≠ iv then
    let s1 := updateGLSubViewports { s with secondarySubViewport := iv }
    ({ s1 with
        changeTracker := { s1.changeTracker with secondarySubViewportChanged := true },
        sceneDirty := true },
     [Signal.secondarySubViewportChanged iv, Signal.needRender])
  else (s, [])

/-- Q3DScenePrivate::calculateSubViewports: the default sub-viewport layout.
Slicing: primary is the 0.2f-scaled corner rectangle, secondary the full
viewport; otherwise primary is the full viewport and secondary is empty.
Finishes with updateGLViewport. -/
def calculateSubViewports (s : SceneState) : SceneState × List Signal :=
  if s.isSlicingActive then
    let r1 := setPrimarySubViewport s
      ⟨0, 0, scaleTrunc s.viewport.w smallerViewPortRatio,
             scaleTrunc s.viewport.h smallerViewPortRatio⟩
    let r2 := setSecondarySubViewport r1.1 ⟨0, 0, s.viewport.w, s.viewport.h⟩
    let r3 := updateGLViewport r2.1
    (r3.1, r1.2 ++ r2.2 ++ r3.2)
  else
    let r1 := setPrimarySubViewport s ⟨0, 0, s.viewport.w, s.viewport.h⟩
    let r2 := setSecondarySubViewport r1.1 ⟨0, 0, 0, 0⟩
    let r3 := updateGLViewport r2.1
    (r3.1, r1.2 ++ r2.2 ++ r3.2)

/-- Q3DScene::setSlicingActive: toggle the slicing flag, mark it dirty,
recalculate the sub-viewports, then signal. -/
def setSlicingActive (s : SceneState) (isSlicing : Bool) : SceneState × List Signal :=
  if s.isSlicingActive ≠ isSlicing then
    let s1 := { s with
      isSlicingActive := isSlicing,
      changeTracker := { s.changeTracker with slicingActivatedChanged := true },
      sceneDirty := true }
    let r := calculateSubViewports s1
    (r.1, r.2 ++ [Signal.slicingActiveChanged isSlicing, Signal.needRender])
  else (s, [])

/-- Q3DScene::setSecondarySubviewOnTop. -/
def setSecondarySubviewOnTop (s : SceneState) (isSecondaryOnTop : Bool) :
    SceneState × List Signal :=
  if s.isSecondarySubviewOnTop ≠ isSecondaryOnTop then
    ({ s with
        isSecondarySubviewOnTop := isSecondaryOnTop,
        changeTracker := { s.changeTracker with subViewportOrderChanged := true },
        sceneDirty := true },
     [Signal.secondarySubviewOnTopChanged isSecondaryOnTop, Signal.needRender])
  else (s, [])

/-- Q3DScene::setSelectionQueryPosition. -/
def setSelectionQueryPosition (s : SceneState) (point : QPointI) :
    SceneState × List Signal :=
  if point ≠ s.selectionQueryPosition then
    ({ s with
        selectionQueryPosition := point,
        changeTracker := { s.changeTracker with selectionQueryPositionChanged := true },
        sceneDirty := true },
     [Signal.selectionQueryPositionChanged point, Signal.needRender])
  else (s, [])

/-- Q3DScene::setDevicePixelRatio: store, mark dirty, signal the change,
refresh the GL viewport (which itself emits viewportChanged), then request
a render. -/
def setDevicePixelRatio (s : SceneState) (pixelRatio : ℚ) : SceneState × List Signal :=
  if s.devicePixelRatio ≠ pixelRatio then
    let s1 := { s with
      devicePixelRatio := pixelRatio,
      changeTracker := { s.changeTracker with devicePixelRatioChanged := true },
      sceneDirty := true }
    let r := updateGLViewport s1
    (r.1, Signal.devicePixelRatioChanged pixelRatio :: r.2 ++ [Signal.needRender])
  else (s, [])

/-- Q3DScenePrivate::setViewport (private): store a differing viewport and
recalculate the sub-viewports. -/
def setViewportPrivate (s : SceneState) (v : QRectI) : SceneState × List Signal :=
  if s.viewport ≠ v then
    let r := calculateSubViewports { s with viewport := v }
    (r.1, r.2 ++ [Signal.needRender])
  else (s, [])

/-- Q3DScenePrivate::setWindowSize: store a differing window size, refresh
the GL viewport, mark the window size dirty. -/
def setWindowSize (s : SceneState) (size : QSizeI) : SceneState × List Signal :=
  if s.windowSize ≠ size then
    let r := updateGLViewport { s with windowSize := size }
    ({ r.1 with
        changeTracker := { r.1.changeTracker with windowSizeChanged := true },
        sceneDirty := true },
     r.2 ++ [Signal.needRender])
  else (s, [])

/-- Q3DScene::isPointInPrimarySubView: the bounds test of the source, with
its asymmetry: the lower x bound omits the viewport x offset while the
other three bounds include the viewport offsets; all comparisons strict. -/
def isPointInPrimarySubView (s : SceneState) (point : QPointI) : Bool :=
  let areaMinX := s.primarySubViewport.x
  let areaMaxX := s.viewport.x + s.primarySubViewport.x + s.primarySubViewport.w
  let areaMaxY := s.viewport.y + s.primarySubViewport.y + s.primarySubViewport.h
  let areaMinY := s.viewport.y + s.primarySubViewport.y
  point.x > areaMinX && point.x < areaMaxX && point.y > areaMinY && point.y < areaMaxY

/-- Q3DScene::isPointInSecondarySubView, same shape as the primary test. -/
def isPointInSecondarySubView (s : SceneState) (point : QPointI) : Bool :=
  let areaMinX := s.secondarySubViewport.x
  let areaMaxX := s.viewport.x + s.secondarySubViewport.x + s.secondarySubViewport.w
  let areaMaxY := s.viewport.y + s.secondarySubViewport.y + s.secondarySubViewport.h
  let areaMinY := s.viewport.y + s.secondarySubViewport.y
  point.x > areaMinX && point.x < areaMaxX && point.y > areaMinY && point.y < areaMaxY

/-- The branch of Q3DScenePrivate::sync for the window size: when the
caller's flag is set, push the caller's window size into `other` through
its setter, then clear the flag on both sides. -/
def syncWindowSize (st : SceneState × SceneState) : SceneState × SceneState :=
  let s := st.1
  let t := st.2
  if s.changeTracker.windowSizeChanged then
    let t1 := (setWindowSize t s.windowSize).1
    ({ s with changeTracker := { s.changeTracker with windowSizeChanged := false } },
     { t1 with changeTracker := { t1.changeTracker with windowSizeChanged := false } })
  else st

/-- The sync branch for the viewport (through the private setter, which
recalculates the receiver's sub-viewports). -/
def syncViewport (st : SceneState × SceneState) : SceneState × SceneState :=
  let s := st.1
  let t := st.2
  if s.changeTracker.viewportChanged then
    let t1 := (setViewportPrivate t s.viewport).1
    ({ s with changeTracker := { s.changeTracker with viewportChanged := false } },
     { t1 with changeTracker := { t1.changeTracker with viewportChanged := false } })
  else st

/-- The sync branch for the sub-viewport ordering flag. -/
def syncSubViewportOrder (st : SceneState × SceneState) : SceneState × SceneState :=
  let s := st.1
  let t := st.2
  if s.changeTracker.subViewportOrderChanged then
    let t1 := (setSecondarySubviewOnTop t s.isSecondarySubviewOnTop).1
    ({ s with changeTracker := { s.changeTracker with subViewportOrderChanged := false } },
     { t1 with changeTracker := { t1.changeTracker with subViewportOrderChanged := false } })
  else st

/-- The sync branch for the primary sub-viewport (through the public
setter, which re-clips against the receiver's viewport). -/
def syncPrimarySubViewport (st : SceneState × SceneState) : SceneState × SceneState :=
  let s := st.1
  let t := st.2
  if s.changeTracker.primarySubViewportChanged then
    let t1 := (setPrimarySubViewport t s.primarySubViewport).1
    ({ s with changeTracker := { s.changeTracker with primarySubViewportChanged := false } },
     { t1 with changeTracker := { t1.changeTracker with primarySubViewportChanged := false } })
  else st

/-- The sync branch for the secondary sub-viewport. -/
def syncSecondarySubViewport (st : SceneState × SceneState) : SceneState × SceneState :=
  let s := st.1
  let t := st.2
  if s.changeTracker.secondarySubViewportChanged then
    let t1 := (setSecondarySubViewport t s.secondarySubViewport).1
    ({ s with changeTracker := { s.changeTracker with secondarySubViewportChanged := false } },
     { t1 with changeTracker := { t1.changeTracker with secondarySubViewportChanged := false } })
  else st

/-- The sync branch for the selection query position. -/
def syncSelectionQueryPosition (st : SceneState × SceneState) : SceneState × SceneState :=
  let s := st.1
  let t := st.2
  if s.changeTracker.selectionQueryPositionChanged then
    let t1 := (setSelectionQueryPosition t s.selectionQueryPosition).1
    ({ s with changeTracker := { s.changeTracker with selectionQueryPositionChanged := false } },
     { t1 with changeTracker := { t1.changeTracker with selectionQueryPositionChanged := false } })
  else st

/-- The sync branch for the camera flag: the source sets the caller's
camera object dirty (`m_camera->setDirty(true)`, an object outside
`SceneState`) and clears the flag on both sides; the unconditional
`m_camera->d_ptr->sync` that follows also acts only on the camera
objects. -/
def syncCameraFlag (st : SceneState × SceneState) : SceneState × SceneState :=
  let s := st.1
  let t := st.2
  if s.changeTracker.cameraChanged then
    ({ s with changeTracker := { s.changeTracker with cameraChanged := false } },
     { t with changeTracker := { t.changeTracker with cameraChanged := false } })
  else st

/-- The sync branch for the light flag, analogous to the camera flag. -/
def syncLightFlag (st : SceneState × SceneState) : SceneState × SceneState :=
  let s := st.1
  let t := st.2
  if s.changeTracker.lightChanged then
    ({ s with changeTracker := { s.changeTracker with lightChanged := false } },
     { t with changeTracker := { t.changeTracker with lightChanged := false } })
  else st

/-- The sync branch for the slicing flag (through the public setter, which
recalculates the receiver's sub-viewports). -/
def syncSlicingActivated (st : SceneState × SceneState) : SceneState × SceneState :=
  let s := st.1
  let t := st.2
  if s.changeTracker.slicingActivatedChanged then
    let t1 := (setSlicingActive t s.isSlicingActive).1
    ({ s with changeTracker := { s.changeTracker with slicingActivatedChanged := false } },
     { t1 with changeTracker := { t1.changeTracker with slicingActivatedChanged := false } })
  else st

/-- The sync branch for the device pixel ratio (through the public setter,
which refreshes the receiver's GL viewport). -/
def syncDevicePixelRatio (st : SceneState × SceneState) : SceneState × SceneState :=
  let s := st.1
  let t := st.2
  if s.changeTracker.devicePixelRatioChanged then
    let t1 := (setDevicePixelRatio t s.devicePixelRatio).1
    ({ s with changeTracker := { s.changeTracker with devicePixelRatioChanged := false } },
     { t1 with changeTracker := { t1.changeTracker with devicePixelRatioChanged := false } })
  else st

/-- Q3DScenePrivate::sync(other): run the ten flag branches in source
order, then clear the scene dirty bit on both sides.  Returns the pair
(caller state, other state) after the call. -/
def sync (s other : SceneState) : SceneState × SceneState :=
  let st := syncDevicePixelRatio (syncSlicingActivated (syncLightFlag (syncCameraFlag
    (syncSelectionQueryPosition (syncSecondarySubViewport (syncPrimarySubViewport
      (syncSubViewportOrder (syncViewport (syncWindowSize (s, other))))))))))
  ({ st.1 with sceneDirty := false }, { st.2 with sceneDirty := false })

/-- The claim's reading of the point-in-subview test: the point lies
strictly inside the sub-viewport rectangle translated by the viewport's
offset (all four bounds offset, all comparisons strict).  Stated from the
spec's words, to be compared with the source functions above. -/
def specPointInSubView (viewport sub : QRectI) (point : QPointI) : Prop :=
  viewport.x + sub.x < point.x ∧ point.x < viewport.x + sub.x + sub.w ∧
  viewport.y + sub.y < point.y ∧ point.y < viewport.y + sub.y + sub.h

/-- Two rectangles are disjoint when their Qt intersection is null. -/
def rectDisjoint (a b : QRectI) : Prop := (QRectI.intersected a b).isNull = true

/-- `r` does not extend outside the (0,0)-anchored box of width `w` and
height `h`: it is empty, or its span lies inside the box. -/
def containedInBox (r : QRectI) (w h : Int) : Prop :=
  (r.w ≤ 0 ∨ r.h ≤ 0) ∨
  (0 ≤ r.x ∧ r.x + r.w ≤ w ∧ 0 ≤ r.y ∧ r.y + r.h ≤ h)

/-- The QObject-side state for Q3DScene::setActiveCamera / setActiveLight:
the scene's object id, the active camera / light pointers (ids; none is a
null pointer), each object's parent (association list), the ids of cameras
whose rotation / zoom signals are connected to Q3DScenePrivate::needRender,
and the camera / light dirty flags of the change tracker. -/
structure SceneObjects where
  sceneId : Nat
  camera : Option Nat
  light : Option Nat
  parents : List (Nat × Option Nat)
  connectedCameras : List Nat
  cameraChangedFlag : Bool
  lightChangedFlag : Bool
  sceneDirtyFlag : Bool
deriving DecidableEq, Repr

/-- Look up an object's parent in the association list. -/
def parentOf (ps : List (Nat × Option Nat)) (id : Nat) : Option Nat :=
  match ps.find? (fun q => q.1 == id) with
  | some q => q.2
  | none => none

/-- QObject::setParent: record `p` as the parent of `id`. -/
def setParent (ps : List (Nat × Option Nat)) (id : Nat) (p : Nat) :
    List (Nat × Option Nat) :=
  (id, some p) :: ps.filter (fun q => q.1 != id)

/-- The signals of the camera / light setters. -/
inductive ObjSignal where
  | activeCameraChanged (id : Nat)
  | activeLightChanged (id : Nat)
  | needRender
deriving DecidableEq, Repr

/-- Q3DScene::setActiveCamera: Q_ASSERT on a null pointer; re-parent the
camera under the scene when needed; when the camera differs from the
current one, disconnect the old camera's rotation / zoom notifications,
store the new camera, mark it dirty, connect the new camera's
notifications, and emit activeCameraChanged then needRender. -/
def setActiveCamera (w : SceneObjects) (camera : Option Nat) :
    Except String (SceneObjects × List ObjSignal) :=
  match camera with
  | none => Except.error "Q_ASSERT(camera)"
  | some cam =>
    let w1 := if parentOf w.parents cam ≠ some w.sceneId
              then { w with parents := setParent w.parents cam w.sceneId }
              else w
    if w1.camera ≠ some cam then
      let conns :=
        match w1.camera with
        | some old => w1.connectedCameras.filter (fun i => i != old)
        | none => w1.connectedCameras
      Except.ok
        ({ w1 with
            camera := some cam,
            cameraChangedFlag := true,
            sceneDirtyFlag := true,
            connectedCameras := cam :: conns },
         [ObjSignal.activeCameraChanged cam, ObjSignal.needRender])
    else Except.ok (w1, [])

/-- Q3DScene::setActiveLight: Q_ASSERT on a null pointer; re-parent the
light under the scene when needed; when the light differs from the current
one, store it, mark it dirty and emit activeLightChanged (no needRender,
unlike the camera setter). -/
def setActiveLight (w : SceneObjects) (light : Option Nat) :
    Except String (SceneObjects × List ObjSignal) :=
  match light with
  | none => Except.error "Q_ASSERT(light)"
  | some lgt =>
    let w1 := if parentOf w.parents lgt ≠ some w.sceneId
              then { w with parents := setParent w.parents lgt w.sceneId }
              else w
    if w1.light ≠ some lgt then
      Except.ok
        ({ w1 with
            light := some lgt,
            lightChangedFlag := true,
            sceneDirtyFlag := true },
         [ObjSignal.activeLightChanged lgt])
    else Except.ok (w1, [])

/-- A 3D vector with exact rational components. -/
structure Vec3 where
  x : ℚ
  y : ℚ
  z : ℚ
deriving DecidableEq, Repr

/-- Component-wise difference of vectors. -/
def vsub (a b : Vec3) : Vec3 := ⟨a.x - b.x, a.y - b.y, a.z - b.z⟩

/-- Component-wise sum of vectors. -/
def vadd (a b : Vec3) : Vec3 := ⟨a.x + b.x, a.y + b.y, a.z + b.z⟩

/-- Cross product. -/
def cross (a b : Vec3) : Vec3 :=
  ⟨a.y * b.z - a.z * b.y, a.z * b.x - a.x * b.z, a.x * b.y - a.y * b.x⟩

/-- Modelled from the spec: the implementation of `SurfaceObject`
(surfaceobject.cpp) is not under src/; only its declaration
(surfaceobject_p.h) is.  Per the spec, the builder keeps a grid of
`rows × columns` vertices and normals in row-major CPU-side arrays. -/
structure SurfaceObject where
  rows : Nat
  columns : Nat
  vertices : List Vec3
  normals : List Vec3
deriving DecidableEq, Repr

/-- Modelled from the spec: a sample grid entry at (row, column); heights
are normalized by the value range and minimum into a fixed vertical
scale.  Missing entries read as 0. -/
def sampleAt (dataArray : List (List ℚ)) (row column : Nat) : ℚ :=
  (dataArray.getD row []).getD column 0

/-- Modelled from the spec: the vertex position of grid cell
(row, column) — lateral coordinates from the grid index, height
normalized by `yMin` and `yRange`. -/
def smoothVertex (dataArray : List (List ℚ)) (yRange yMin : ℚ)
    (row column : Nat) : Vec3 :=
  ⟨(column : ℚ), (sampleAt dataArray row column - yMin) / yRange, (row : ℚ)⟩

/-- Modelled from the spec: the face normal of a triangle a-b-c is the
cross product of (b − a) and (c − a) (the spec's normalization to unit
length is a scalar factor with no effect on which entries a row update
recomputes, and is omitted: square roots are not rational). -/
def faceNormal (a b c : Vec3) : Vec3 := cross (vsub b a) (vsub c a)

/-- Modelled from the spec: a smooth-mode vertex normal is the sum of the
face normals of the adjacent faces; with the spec's triangulation
((x,y)-(x+1,y)-(x,y+1) and (x+1,y)-(x+1,y+1)-(x,y+1) per quad) each
vertex has up to six incident triangles; out-of-grid neighbours
contribute nothing. -/
def smoothNormal (dataArray : List (List ℚ)) (yRange yMin : ℚ)
    (rows columns : Nat) (row column : Nat) : Vec3 :=
  let vtx := fun (r c : Nat) => smoothVertex dataArray yRange yMin r c
  let inGrid := fun (r c : Int) =>
    0 ≤ r && r < (rows : Int) && 0 ≤ c && c < (columns : Int)
  let r := (row : Int)
  let c := (column : Int)
  let quadFaces := fun (qr qc : Nat) =>
    [faceNormal (vtx qr qc) (vtx qr (qc + 1)) (vtx (qr + 1) qc),
     faceNormal (vtx qr (qc + 1)) (vtx (qr + 1) (qc + 1)) (vtx (qr + 1) qc)]
  let acc0 := (⟨0, 0, 0⟩ : Vec3)
  let acc1 := if inGrid (r - 1) (c - 1) && inGrid r c then
      vadd acc0 ((quadFaces (row - 1) (column - 1)).getD 1 acc0)
    else acc0
  let acc2 := if inGrid (r - 1) c && inGrid r (c + 1) then
      vadd (vadd acc1 ((quadFaces (row - 1) column).getD 0 acc0))
           ((quadFaces (row - 1) column).getD 1 acc0)
    else acc1
  let acc3 := if inGrid r (c - 1) && inGrid (r + 1) c then
      vadd (vadd acc2 ((quadFaces row (column - 1)).getD 0 acc0))
           ((quadFaces row (column - 1)).getD 1 acc0)
    else acc2
  if inGrid r c && inGrid (r + 1) (c + 1) then
    vadd acc3 ((quadFaces row column).getD 0 acc0)
  else acc3

/-- Modelled from the spec: coarse (flat) mode duplicates vertices per
face; abstracting the duplication layout, the coarse entry of a grid cell
carries the cell position and the exact normal of the cell's first face. -/
def coarseVertex (dataArray : List (List ℚ)) (yRange yMin : ℚ)
    (row column : Nat) : Vec3 :=
  smoothVertex dataArray yRange yMin row column

/-- Modelled from the spec: the flat-shaded normal of a grid cell — the
exact face normal of the cell's first triangle, no averaging. -/
def coarseNormal (dataArray : List (List ℚ)) (yRange yMin : ℚ)
    (row column : Nat) : Vec3 :=
  faceNormal (smoothVertex dataArray yRange yMin row column)
             (smoothVertex dataArray yRange yMin row (column + 1))
             (smoothVertex dataArray yRange yMin (row + 1) column)

/-- Modelled from the spec: SurfaceObject::updateSmoothRows — partial
update restricted to the row range [startRow, endRow): entries of rows in
the range are recomputed from the data array, entries of rows outside the
range keep their previous value. -/
def updateSmoothRows (o : SurfaceObject) (dataArray : List (List ℚ))
    (startRow endRow : Nat) (yRange yMin : ℚ) : SurfaceObject :=
  { o with
    vertices := (List.range (o.rows * o.columns)).map (fun i =>
      let r := i / o.columns
      let c := i % o.columns
      if startRow ≤ r ∧ r < endRow then smoothVertex dataArray yRange yMin r c
      else o.vertices.getD i ⟨0, 0, 0⟩),
    normals := (List.range (o.rows * o.columns)).map (fun i =>
      let r := i / o.columns
      let c := i % o.columns
      if startRow ≤ r ∧ r < endRow then
        smoothNormal dataArray yRange yMin o.rows o.columns r c
      else o.normals.getD i ⟨0, 0, 0⟩) }

/-- Modelled from the spec: SurfaceObject::updateCoarseRows — the coarse
variant of the partial row-range update. -/
def updateCoarseRows (o : SurfaceObject) (dataArray : List (List ℚ))
    (startRow endRow : Nat) (yRange yMin : ℚ) : SurfaceObject :=
  { o with
    vertices := (List.range (o.rows * o.columns)).map (fun i =>
      let r := i / o.columns
      let c := i % o.columns
      if startRow ≤ r ∧ r < endRow then coarseVertex dataArray yRange yMin r c
      else o.vertices.getD i ⟨0, 0, 0⟩),
    normals := (List.range (o.rows * o.columns)).map (fun i =>
      let r := i / o.columns
      let c := i % o.columns
      if startRow ≤ r ∧ r < endRow then coarseNormal dataArray yRange yMin r c
      else o.normals.getD i ⟨0, 0, 0⟩) }

/-- SurfaceObject::vertexAt(column, row): the stored position of the grid
cell, none when the indices exceed the grid extents. -/
def vertexAt (o : SurfaceObject) (column row : Nat) : Option Vec3 :=
  if row < o.rows && column < o.columns then o.vertices[row * o.columns + column]?
  else none

/-- A well-formed scene over an 800×600 window with the default layout:
full-viewport primary sub-viewport, empty secondary, pixel ratio 1, no
slicing, no pending changes. -/
def baseScene : SceneState :=
  { windowSize := ⟨800, 600⟩
    viewport := ⟨0, 0, 800, 600⟩
    primarySubViewport := ⟨0, 0, 800, 600⟩
    secondarySubViewport := ⟨0, 0, 0, 0⟩
    glViewport := ⟨0, 0, 800, 600⟩
    glPrimarySubViewport := ⟨0, 0, 800, 600⟩
    glSecondarySubViewport := ⟨0, 0, 0, 0⟩
    isSecondarySubviewOnTop := true
    devicePixelRatio := 1
    isSlicingActive := false
    selectionQueryPosition := ⟨-1, -1⟩
    changeTracker := allFlagsClear
    sceneDirty := false }

/-- Sync caller for the C1 counterexample: only the window size flag is
set. -/
def sceneC1Caller : SceneState :=
  { baseScene with
      changeTracker := { allFlagsClear with windowSizeChanged := true },
      sceneDirty := true }

/-- Sync receiver for the C1 counterexample: clean tracker, smaller
window. -/
def sceneC1Other : SceneState :=
  { baseScene with windowSize := ⟨400, 300⟩ }

/-- Scene with an offset viewport for the C3 counterexample. -/
def sceneC3 : SceneState :=
  { baseScene with
      viewport := ⟨10, 20, 100, 100⟩,
      primarySubViewport := ⟨0, 0, 50, 50⟩,
      secondarySubViewport := ⟨0, 0, 40, 40⟩ }

/-- The spec's worked example: viewport (0,0,800,600), window height 600,
pixel ratio 2. -/
def sceneC3Example : SceneState := { baseScene with devicePixelRatio := 2 }

/-- Scene whose viewport width is not a multiple of 5, for the C4
counterexample. -/
def sceneC4 : SceneState := { baseScene with viewport := ⟨0, 0, 7, 5⟩ }

/-- Scene with an x-offset viewport for the C5 counterexample. -/
def sceneC5 : SceneState :=
  { baseScene with
      viewport := ⟨10, 0, 100, 100⟩,
      primarySubViewport := ⟨0, 0, 100, 100⟩,
      secondarySubViewport := ⟨0, 0, 100, 100⟩ }

/-- Scene with a far-offset viewport and two disjoint sub-viewports for
the C6 counterexample. -/
def sceneC6 : SceneState :=
  { baseScene with
      viewport := ⟨100, 0, 200, 200⟩,
      primarySubViewport := ⟨0, 0, 10, 10⟩,
      secondarySubViewport := ⟨20, 0, 10, 10⟩ }

/-- Scene world for the C8 / C10 witnesses: scene object 0, active camera
1 (connected), active light 2, both parented to the scene. -/
def objWorld : SceneObjects :=
  { sceneId := 0
    camera := some 1
    light := some 2
    parents := [(1, some 0), (2, some 0)]
    connectedCameras := [1]
    cameraChangedFlag := false
    lightChangedFlag := false
    sceneDirtyFlag := false }

/-- A 10×10 surface grid with all-zero buffers, for the C9 witness. -/
def surface10 : SurfaceObject :=
  { rows := 10
    columns := 10
    vertices := List.replicate 100 ⟨0, 0, 0⟩
    normals := List.replicate 100 ⟨0, 0, 0⟩ }

/-- A 10×10 sample array: row index as height. -/
def data10 : List (List ℚ) :=
  (List.range 10).map (fun r => List.replicate 10 (r : ℚ))

/-- Scene already in slicing mode over the 800×600 viewport. -/
def sceneSliced : SceneState :=
  { baseScene with
      isSlicingActive := true,
      primarySubViewport := ⟨0, 0, 160, 120⟩,
      secondarySubViewport := ⟨0, 0, 800, 600⟩ }


lemma setPrimarySubViewport_val (s : SceneState) (r : QRectI) :
    (setPrimarySubViewport s r).1.primarySubViewport =
      QRectI.intersected r ⟨0, 0, s.viewport.w, s.viewport.h⟩ := by
  unfold setPrimarySubViewport updateGLSubViewports
  dsimp only
  split
  · rfl
  · next h => push_neg at h; exact h

lemma setSecondarySubViewport_val (s : SceneState) (r : QRectI) :
    (setSecondarySubViewport s r).1.secondarySubViewport =
      QRectI.intersected r ⟨0, 0, s.viewport.w, s.viewport.h⟩ := by
  unfold setSecondarySubViewport updateGLSubViewports
  dsimp only
  split
  · rfl
  · next h => push_neg at h; exact h

lemma setPrimarySubViewport_noop (s : SceneState) (r : QRectI)
    (h : QRectI.intersected r ⟨0, 0, s.viewport.w, s.viewport.h⟩ = s.primarySubViewport) :
    setPrimarySubViewport s r = (s, []) := by
  unfold setPrimarySubViewport
  dsimp only
  split
  · next hne => exact absurd h.symm hne
  · rfl

lemma setSecondarySubViewport_noop (s : SceneState) (r : QRectI)
    (h : QRectI.intersected r ⟨0, 0, s.viewport.w, s.viewport.h⟩ = s.secondarySubViewport) :
    setSecondarySubViewport s r = (s, []) := by
  unfold setSecondarySubViewport
  dsimp only
  split
  · next hne => exact absurd h.symm hne
  · rfl

lemma intersected_containedInBox (r : QRectI) (w h : Int) (hw : 0 ≤ w) (hh : 0 ≤ h) :
    containedInBox (QRectI.intersected r ⟨0, 0, w, h⟩) w h := by
  unfold QRectI.intersected containedInBox QRectI.isNull QRectI.nullRect QRectI.x2 QRectI.y2
  dsimp only
  split_ifs <;>
    simp only [Bool.or_eq_true, Bool.and_eq_true, beq_iff_eq, decide_eq_true_eq,
      not_or, not_and, not_lt] at * <;>
    omega

lemma smallerViewPortRatio_num : smallerViewPortRatio.num = 13421773 := by decide

lemma smallerViewPortRatio_den : (smallerViewPortRatio.den : Int) = 67108864 := by decide

lemma scaleTrunc_ratio_nonneg (w : Int) (hw : 0 ≤ w) :
    0 ≤ scaleTrunc w smallerViewPortRatio := by
  unfold scaleTrunc
  rw [smallerViewPortRatio_num, smallerViewPortRatio_den,
    Int.tdiv_eq_ediv (by omega) (by omega)]
  exact Int.ediv_nonneg (by omega) (by omega)

lemma one_le_scaleTrunc_ratio (w : Int) (hw : 5 ≤ w) :
    1 ≤ scaleTrunc w smallerViewPortRatio := by
  unfold scaleTrunc
  rw [smallerViewPortRatio_num, smallerViewPortRatio_den,
    Int.tdiv_eq_ediv (by omega) (by omega)]
  rw [Int.le_ediv_iff_mul_le (by omega)]
  omega

lemma scaleTrunc_ratio_le (w : Int) (hw : 0 ≤ w) :
    scaleTrunc w smallerViewPortRatio ≤ w := by
  unfold scaleTrunc
  rw [smallerViewPortRatio_num, smallerViewPortRatio_den,
    Int.tdiv_eq_ediv (by omega) (by omega)]
  calc w * 13421773 / 67108864 ≤ w * 67108864 / 67108864 :=
        Int.ediv_le_ediv (by omega) (by nlinarith)
    _ = w := Int.mul_ediv_cancel w (by omega)

lemma intersected_nested (a w h : Int) (b : Int)
    (ha : 0 < a) (hb : 0 < b) (hw : a ≤ w) (hk : b ≤ h) :
    QRectI.intersected ⟨0, 0, a, b⟩ ⟨0, 0, w, h⟩ = ⟨0, 0, a, b⟩ := by
  unfold QRectI.intersected QRectI.isNull QRectI.nullRect QRectI.x2 QRectI.y2
  dsimp only
  split_ifs <;>
    simp_all only [Bool.or_eq_true, Bool.and_eq_true, beq_iff_eq, decide_eq_true_eq,
      QRectI.mk.injEq] <;>
    omega

lemma intersected_nullLeft (b : QRectI) :
    QRectI.intersected ⟨0, 0, 0, 0⟩ b = QRectI.nullRect := by
  unfold QRectI.intersected QRectI.isNull
  simp

lemma setPrimarySubViewport_pres (s : SceneState) (r : QRectI) :
    (setPrimarySubViewport s r).1.windowSize = s.windowSize ∧
    (setPrimarySubViewport s r).1.viewport = s.viewport ∧
    (setPrimarySubViewport s r).1.secondarySubViewport = s.secondarySubViewport ∧
    (setPrimarySubViewport s r).1.isSecondarySubviewOnTop = s.isSecondarySubviewOnTop ∧
    (setPrimarySubViewport s r).1.devicePixelRatio = s.devicePixelRatio ∧
    (setPrimarySubViewport s r).1.isSlicingActive = s.isSlicingActive ∧
    (setPrimarySubViewport s r).1.selectionQueryPosition = s.selectionQueryPosition := by
  unfold setPrimarySubViewport updateGLSubViewports
  dsimp only
  split <;> exact ⟨rfl, rfl, rfl, rfl, rfl, rfl, rfl⟩

lemma setSecondarySubViewport_pres (s : SceneState) (r : QRectI) :
    (setSecondarySubViewport s r).1.windowSize = s.windowSize ∧
    (setSecondarySubViewport s r).1.viewport = s.viewport ∧
    (setSecondarySubViewport s r).1.primarySubViewport = s.primarySubViewport ∧
    (setSecondarySubViewport s r).1.isSecondarySubviewOnTop = s.isSecondarySubviewOnTop ∧
    (setSecondarySubViewport s r).1.devicePixelRatio = s.devicePixelRatio ∧
    (setSecondarySubViewport s r).1.isSlicingActive = s.isSlicingActive ∧
    (setSecondarySubViewport s r).1.selectionQueryPosition = s.selectionQueryPosition := by
  unfold setSecondarySubViewport updateGLSubViewports
  dsimp only
  split <;> exact ⟨rfl, rfl, rfl, rfl, rfl, rfl, rfl⟩

lemma updateGLViewport_pres (s : SceneState) :
    (updateGLViewport s).1.windowSize = s.windowSize ∧
    (updateGLViewport s).1.viewport = s.viewport ∧
    (updateGLViewport s).1.primarySubViewport = s.primarySubViewport ∧
    (updateGLViewport s).1.secondarySubViewport = s.secondarySubViewport ∧
    (updateGLViewport s).1.isSecondarySubviewOnTop = s.isSecondarySubviewOnTop ∧
    (updateGLViewport s).1.devicePixelRatio = s.devicePixelRatio ∧
    (updateGLViewport s).1.isSlicingActive = s.isSlicingActive ∧
    (updateGLViewport s).1.selectionQueryPosition = s.selectionQueryPosition := by
  exact ⟨rfl, rfl, rfl, rfl, rfl, rfl, rfl, rfl⟩

lemma calculateSubViewports_slicing (s : SceneState) (hs : s.isSlicingActive = true)
    (hw : 5 ≤ s.viewport.w) (hh : 5 ≤ s.viewport.h) :
    (calculateSubViewports s).1.primarySubViewport =
      ⟨0, 0, scaleTrunc s.viewport.w smallerViewPortRatio,
             scaleTrunc s.viewport.h smallerViewPortRatio⟩ ∧
    (calculateSubViewports s).1.secondarySubViewport =
      ⟨0, 0, s.viewport.w, s.viewport.h⟩ := by
  unfold calculateSubViewports
  rw [if_pos hs]
  dsimp only
  constructor
  · rw [(updateGLViewport_pres _).2.2.1, (setSecondarySubViewport_pres _ _).2.2.1,
      setPrimarySubViewport_val]
    exact intersected_nested _ _ _ _
      (one_le_scaleTrunc_ratio _ hw) (one_le_scaleTrunc_ratio _ hh)
      (scaleTrunc_ratio_le _ (by omega)) (scaleTrunc_ratio_le _ (by omega))
  · rw [(updateGLViewport_pres _).2.2.2.1, setSecondarySubViewport_val,
      (setPrimarySubViewport_pres _ _).2.1]
    exact intersected_nested _ _ _ _ (by omega) (by omega) le_rfl le_rfl

lemma calculateSubViewports_notSlicing (s : SceneState) (hs : s.isSlicingActive = false)
    (hw : 0 < s.viewport.w) (hh : 0 < s.viewport.h) :
    (calculateSubViewports s).1.primarySubViewport =
      ⟨0, 0, s.viewport.w, s.viewport.h⟩ ∧
    (calculateSubViewports s).1.secondarySubViewport = ⟨0, 0, 0, 0⟩ := by
  unfold calculateSubViewports
  rw [if_neg (by simp [hs])]
  dsimp only
  constructor
  · rw [(updateGLViewport_pres _).2.2.1, (setSecondarySubViewport_pres _ _).2.2.1,
      setPrimarySubViewport_val]
    exact intersected_nested _ _ _ _ hw hh le_rfl le_rfl
  · rw [(updateGLViewport_pres _).2.2.2.1, setSecondarySubViewport_val]
    rw [intersected_nullLeft]
    rfl

lemma setSlicingActive_toggle (s : SceneState) (b : Bool) (h : s.isSlicingActive ≠ b) :
    (setSlicingActive s b).1 =
      (calculateSubViewports
        { s with
            isSlicingActive := b,
            changeTracker := { s.changeTracker with slicingActivatedChanged := true },
            sceneDirty := true }).1 := by
  unfold setSlicingActive
  dsimp only
  split
  · rfl
  · next hc => exact absurd h hc

/-- C2: `setPrimarySubViewport(R)` and `setSecondarySubViewport(R)` store
exactly the Qt intersection of R with the (0,0)-anchored viewport box;
for a non-degenerate viewport the stored rectangle never extends outside
that box; and when the clipped value equals the stored one the call
leaves the state unchanged and emits no signal. -/
theorem C2_subViewport_clipping (s : SceneState) (r : QRectI) :
    ((setPrimarySubViewport s r).1.primarySubViewport =
      QRectI.intersected r ⟨0, 0, s.viewport.w, s.viewport.h⟩) ∧
    (0 ≤ s.viewport.w → 0 ≤ s.viewport.h →
      containedInBox (setPrimarySubViewport s r).1.primarySubViewport
        s.viewport.w s.viewport.h) ∧
    (QRectI.intersected r ⟨0, 0, s.viewport.w, s.viewport.h⟩ = s.primarySubViewport →
      setPrimarySubViewport s r = (s, [])) ∧
    ((setSecondarySubViewport s r).1.secondarySubViewport =
      QRectI.intersected r ⟨0, 0, s.viewport.w, s.viewport.h⟩) ∧
    (0 ≤ s.viewport.w → 0 ≤ s.viewport.h →
      containedInBox (setSecondarySubViewport s r).1.secondarySubViewport
        s.viewport.w s.viewport.h) ∧
    (QRectI.intersected r ⟨0, 0, s.viewport.w, s.viewport.h⟩ = s.secondarySubViewport →
      setSecondarySubViewport s r = (s, [])) := by
  refine ⟨setPrimarySubViewport_val s r, ?_, setPrimarySubViewport_noop s r,
    setSecondarySubViewport_val s r, ?_, setSecondarySubViewport_noop s r⟩
  · intro hw hh
    rw [setPrimarySubViewport_val]
    exact intersected_containedInBox r _ _ hw hh
  · intro hw hh
    rw [setSecondarySubViewport_val]
    exact intersected_containedInBox r _ _ hw hh

/-- Witness for C2 at concrete inputs: an oversized request on an 800×600
viewport is stored clipped and stays inside the box; requests whose clip
equals the stored value are exact no-ops. -/
theorem C2_subViewport_clipping_witness :
    ((setPrimarySubViewport baseScene ⟨-10, -10, 900, 700⟩).1.primarySubViewport =
      QRectI.intersected ⟨-10, -10, 900, 700⟩ ⟨0, 0, 800, 600⟩) ∧
    containedInBox
      (setPrimarySubViewport baseScene ⟨-10, -10, 900, 700⟩).1.primarySubViewport
      800 600 ∧
    (setPrimarySubViewport baseScene ⟨-10, -10, 900, 700⟩ = (baseScene, [])) ∧
    ((setSecondarySubViewport baseScene ⟨700, 500, 200, 200⟩).1.secondarySubViewport =
      QRectI.intersected ⟨700, 500, 200, 200⟩ ⟨0, 0, 800, 600⟩) ∧
    (setSecondarySubViewport baseScene ⟨-5, -5, 3, 2⟩ = (baseScene, [])) := by
  refine ⟨(C2_subViewport_clipping baseScene ⟨-10, -10, 900, 700⟩).1,
    (C2_subViewport_clipping baseScene ⟨-10, -10, 900, 700⟩).2.1 (by decide) (by decide),
    (C2_subViewport_clipping baseScene ⟨-10, -10, 900, 700⟩).2.2.1 (by decide),
    (C2_subViewport_clipping baseScene ⟨700, 500, 200, 200⟩).2.2.2.1,
    (C2_subViewport_clipping baseScene ⟨-5, -5, 3, 2⟩).2.2.2.2.2 (by decide)⟩

/-- C3 counterexample: with viewport (10,20,100,100), window height 600,
pixel ratio 1 and primary sub-viewport (0,0,50,50), the derived GL
primary rectangle is not the claimed (R.x*P, (H-(R.y+R.height))*P,
R.width*P, R.height*P): the source adds the viewport offset (10,20). -/
theorem C3_counterexample :
    ¬ ((updateGLSubViewports sceneC3).glPrimarySubViewport =
        ⟨scaleTrunc sceneC3.primarySubViewport.x sceneC3.devicePixelRatio,
         scaleTrunc (sceneC3.windowSize.h -
           (sceneC3.primarySubViewport.y + sceneC3.primarySubViewport.h))
           sceneC3.devicePixelRatio,
         scaleTrunc sceneC3.primarySubViewport.w sceneC3.devicePixelRatio,
         scaleTrunc sceneC3.primarySubViewport.h sceneC3.devicePixelRatio⟩) := by
  decide

/-- C3 amended: the GL viewport follows the claimed formula; the GL
sub-viewports add the viewport offset (primary on x and y, secondary on y
only); when the viewport sits at the origin the claimed formula holds for
the sub-viewports as well; and the worked example (0,0,800,600) at pixel
ratio 2 derives (0,0,1600,1200). -/
theorem C3_glRect_amended (s : SceneState) :
    ((updateGLViewport s).1.glViewport =
      ⟨scaleTrunc s.viewport.x s.devicePixelRatio,
       scaleTrunc (s.windowSize.h - (s.viewport.y + s.viewport.h)) s.devicePixelRatio,
       scaleTrunc s.viewport.w s.devicePixelRatio,
       scaleTrunc s.viewport.h s.devicePixelRatio⟩) ∧
    ((updateGLSubViewports s).glPrimarySubViewport =
      ⟨scaleTrunc (s.primarySubViewport.x + s.viewport.x) s.devicePixelRatio,
       scaleTrunc (s.windowSize.h -
         (s.primarySubViewport.y + s.viewport.y + s.primarySubViewport.h))
         s.devicePixelRatio,
       scaleTrunc s.primarySubViewport.w s.devicePixelRatio,
       scaleTrunc s.primarySubViewport.h s.devicePixelRatio⟩) ∧
    ((updateGLSubViewports s).glSecondarySubViewport =
      ⟨scaleTrunc s.secondarySubViewport.x s.devicePixelRatio,
       scaleTrunc (s.windowSize.h -
         (s.secondarySubViewport.y + s.viewport.y + s.secondarySubViewport.h))
         s.devicePixelRatio,
       scaleTrunc s.secondarySubViewport.w s.devicePixelRatio,
       scaleTrunc s.secondarySubViewport.h s.devicePixelRatio⟩) ∧
    (s.viewport.x = 0 → s.viewport.y = 0 →
      (updateGLSubViewports s).glPrimarySubViewport =
        ⟨scaleTrunc s.primarySubViewport.x s.devicePixelRatio,
         scaleTrunc (s.windowSize.h -
           (s.primarySubViewport.y + s.primarySubViewport.h)) s.devicePixelRatio,
         scaleTrunc s.primarySubViewport.w s.devicePixelRatio,
         scaleTrunc s.primarySubViewport.h s.devicePixelRatio⟩ ∧
      (updateGLSubViewports s).glSecondarySubViewport =
        ⟨scaleTrunc s.secondarySubViewport.x s.devicePixelRatio,
         scaleTrunc (s.windowSize.h -
           (s.secondarySubViewport.y + s.secondarySubViewport.h)) s.devicePixelRatio,
         scaleTrunc s.secondarySubViewport.w s.devicePixelRatio,
         scaleTrunc s.secondarySubViewport.h s.devicePixelRatio⟩) ∧
    ((updateGLViewport sceneC3Example).1.glViewport = ⟨0, 0, 1600, 1200⟩) := by
  refine ⟨rfl, rfl, rfl, ?_, by decide⟩
  intro hx hy
  constructor
  · show (⟨scaleTrunc (s.primarySubViewport.x + s.viewport.x) s.devicePixelRatio,
      scaleTrunc (s.windowSize.h -
        (s.primarySubViewport.y + s.viewport.y + s.primarySubViewport.h))
        s.devicePixelRatio,
      scaleTrunc s.primarySubViewport.w s.devicePixelRatio,
      scaleTrunc s.primarySubViewport.h s.devicePixelRatio⟩ : QRectI) = _
    rw [hx, hy]
    norm_num
  · show (⟨scaleTrunc s.secondarySubViewport.x s.devicePixelRatio,
      scaleTrunc (s.windowSize.h -
        (s.secondarySubViewport.y + s.viewport.y + s.secondarySubViewport.h))
        s.devicePixelRatio,
      scaleTrunc s.secondarySubViewport.w s.devicePixelRatio,
      scaleTrunc s.secondarySubViewport.h s.devicePixelRatio⟩ : QRectI) = _
    rw [hy]
    norm_num

/-- Witness for C3 at the worked example state (viewport at the origin):
the sub-viewport GL rectangles match the claimed formula there. -/
theorem C3_glRect_amended_witness :
    (updateGLSubViewports sceneC3Example).glPrimarySubViewport =
      ⟨scaleTrunc sceneC3Example.primarySubViewport.x sceneC3Example.devicePixelRatio,
       scaleTrunc (sceneC3Example.windowSize.h -
         (sceneC3Example.primarySubViewport.y + sceneC3Example.primarySubViewport.h))
         sceneC3Example.devicePixelRatio,
       scaleTrunc sceneC3Example.primarySubViewport.w sceneC3Example.devicePixelRatio,
       scaleTrunc sceneC3Example.primarySubViewport.h sceneC3Example.devicePixelRatio⟩ ∧
    (updateGLSubViewports sceneC3Example).glSecondarySubViewport =
      ⟨scaleTrunc sceneC3Example.secondarySubViewport.x sceneC3Example.devicePixelRatio,
       scaleTrunc (sceneC3Example.windowSize.h -
         (sceneC3Example.secondarySubViewport.y + sceneC3Example.secondarySubViewport.h))
         sceneC3Example.devicePixelRatio,
       scaleTrunc sceneC3Example.secondarySubViewport.w sceneC3Example.devicePixelRatio,
       scaleTrunc sceneC3Example.secondarySubViewport.h sceneC3Example.devicePixelRatio⟩ :=
  (C3_glRect_amended sceneC3Example).2.2.2.1 (by decide) (by decide)

/-- C4 counterexample: entering slicing on viewport (0,0,7,5) stores a
primary sub-viewport of width 1, not the claimed 20% of 7 = 1.4 (the
source truncates `width * 0.2f` to int). -/
theorem C4_counterexample :
    ¬ (((setSlicingActive sceneC4 true).1.primarySubViewport.w : ℚ) =
        (sceneC4.viewport.w : ℚ) / 5) := by
  intro hcontra
  have h1 : (setSlicingActive sceneC4 true).1.primarySubViewport.w = 1 := by decide
  have h2 : sceneC4.viewport.w = 7 := by decide
  rw [h1, h2] at hcontra
  norm_num at hcontra

/-- C4 amended: entering slicing mode from the non-slicing state sets the
primary sub-viewport to the origin-anchored rectangle of width
trunc(V.width * 0.2f) and height trunc(V.height * 0.2f) and the secondary
to the full viewport (stated for viewports of extent at least 5, where
the truncated 20% rectangle is non-empty and the clipping is exact);
leaving slicing mode sets the primary to the full viewport and the
secondary to the empty rectangle. -/
theorem C4_slicing_amended (s : SceneState) :
    (s.isSlicingActive = false → 5 ≤ s.viewport.w → 5 ≤ s.viewport.h →
      (setSlicingActive s true).1.primarySubViewport =
        ⟨0, 0, scaleTrunc s.viewport.w smallerViewPortRatio,
               scaleTrunc s.viewport.h smallerViewPortRatio⟩ ∧
      (setSlicingActive s true).1.secondarySubViewport =
        ⟨0, 0, s.viewport.w, s.viewport.h⟩) ∧
    (s.isSlicingActive = true → 0 < s.viewport.w → 0 < s.viewport.h →
      (setSlicingActive s false).1.primarySubViewport =
        ⟨0, 0, s.viewport.w, s.viewport.h⟩ ∧
      (setSlicingActive s false).1.secondarySubViewport = ⟨0, 0, 0, 0⟩) := by
  constructor
  · intro hs hw hh
    rw [setSlicingActive_toggle s true (by simp [hs])]
    exact calculateSubViewports_slicing _ rfl hw hh
  · intro hs hw hh
    rw [setSlicingActive_toggle s false (by simp [hs])]
    exact calculateSubViewports_notSlicing _ rfl hw hh

/-- Witness for C4: on the 800×600 viewport, entering slicing yields
primary (0,0,160,120) and secondary (0,0,800,600); leaving slicing from
the sliced state yields primary (0,0,800,600) and secondary (0,0,0,0). -/
theorem C4_slicing_amended_witness :
    (setSlicingActive baseScene true).1.primarySubViewport = ⟨0, 0, 160, 120⟩ ∧
    (setSlicingActive baseScene true).1.secondarySubViewport = ⟨0, 0, 800, 600⟩ ∧
    (setSlicingActive sceneSliced false).1.primarySubViewport = ⟨0, 0, 800, 600⟩ ∧
    (setSlicingActive sceneSliced false).1.secondarySubViewport = ⟨0, 0, 0, 0⟩ := by
  have h1 := (C4_slicing_amended baseScene).1 (by decide) (by decide) (by decide)
  have h2 := (C4_slicing_amended sceneSliced).2 (by decide) (by decide) (by decide)
  have e1 : scaleTrunc baseScene.viewport.w smallerViewPortRatio = 160 := by decide
  have e2 : scaleTrunc baseScene.viewport.h smallerViewPortRatio = 120 := by decide
  refine ⟨?_, h1.2, h2.1, h2.2⟩
  rw [h1.1, e1, e2]

/-- C5 counterexample: with viewport (10,0,100,100) and primary
sub-viewport (0,0,100,100), the point (5,50) is reported inside the
primary subview although it is not strictly inside the sub-viewport
translated by the viewport offset (its x bound would start at 10): the
source omits the viewport x offset from the lower x bound. -/
theorem C5_counterexample :
    isPointInPrimarySubView sceneC5 ⟨5, 50⟩ = true ∧
    ¬ specPointInSubView sceneC5.viewport sceneC5.primarySubViewport ⟨5, 50⟩ := by
  constructor
  · decide
  · unfold specPointInSubView
    decide

/-- C5 amended: the tests are strict bounds tests whose upper x bound and
both y bounds are translated by the viewport offset while the lower x
bound is not; in particular, when the viewport x and y offsets are zero
the test agrees with the claimed strict-interior test of the translated
sub-rectangle, for both subviews. -/
theorem C5_pointInSubView_amended (s : SceneState) (p : QPointI) :
    (isPointInPrimarySubView s p = true ↔
      (s.primarySubViewport.x < p.x ∧
       p.x < s.viewport.x + s.primarySubViewport.x + s.primarySubViewport.w ∧
       s.viewport.y + s.primarySubViewport.y < p.y ∧
       p.y < s.viewport.y + s.primarySubViewport.y + s.primarySubViewport.h)) ∧
    (isPointInSecondarySubView s p = true ↔
      (s.secondarySubViewport.x < p.x ∧
       p.x < s.viewport.x + s.secondarySubViewport.x + s.secondarySubViewport.w ∧
       s.viewport.y + s.secondarySubViewport.y < p.y ∧
       p.y < s.viewport.y + s.secondarySubViewport.y + s.secondarySubViewport.h)) ∧
    (s.viewport.x = 0 → s.viewport.y = 0 →
      ((isPointInPrimarySubView s p = true ↔
        specPointInSubView s.viewport s.primarySubViewport p) ∧
       (isPointInSecondarySubView s p = true ↔
        specPointInSubView s.viewport s.secondarySubViewport p))) := by
  refine ⟨?_, ?_, ?_⟩
  · unfold isPointInPrimarySubView
    simp only [Bool.and_eq_true, decide_eq_true_eq]
    omega
  · unfold isPointInSecondarySubView
    simp only [Bool.and_eq_true, decide_eq_true_eq]
    omega
  · intro hx hy
    unfold isPointInPrimarySubView isPointInSecondarySubView specPointInSubView
    rw [hx, hy]
    simp only [Bool.and_eq_true, decide_eq_true_eq]
    constructor <;> omega

/-- Witness for C5 at a viewport anchored at the origin: the primary test
agrees with the strict-interior reading for a concrete inside point. -/
theorem C5_pointInSubView_amended_witness :
    (isPointInPrimarySubView baseScene ⟨5, 50⟩ = true ↔
      specPointInSubView baseScene.viewport baseScene.primarySubViewport ⟨5, 50⟩) ∧
    (isPointInSecondarySubView baseScene ⟨5, 50⟩ = true ↔
      specPointInSubView baseScene.viewport baseScene.secondarySubViewport ⟨5, 50⟩) :=
  (C5_pointInSubView_amended baseScene ⟨5, 50⟩).2.2 (by decide) (by decide)

/-- C6 counterexample: with viewport (100,0,200,200) and the disjoint
sub-viewports (0,0,10,10) and (20,0,10,10), the point (25,5) is reported
inside both subviews (the missing viewport x offset in the lower x bound
widens both x ranges by the viewport offset). -/
theorem C6_counterexample :
    rectDisjoint sceneC6.primarySubViewport sceneC6.secondarySubViewport ∧
    isPointInPrimarySubView sceneC6 ⟨25, 5⟩ = true ∧
    isPointInSecondarySubView sceneC6 ⟨25, 5⟩ = true := by
  refine ⟨?_, by decide, by decide⟩
  unfold rectDisjoint
  decide

/-- C6 amended: when the viewport sits at the origin, no point is
reported inside both subviews while the primary and secondary
sub-viewports are disjoint. -/
theorem C6_disjoint_amended (s : SceneState) (p : QPointI)
    (hx : s.viewport.x = 0) (hy : s.viewport.y = 0)
    (hdisj : rectDisjoint s.primarySubViewport s.secondarySubViewport) :
    ¬ (isPointInPrimarySubView s p = true ∧ isPointInSecondarySubView s p = true) := by
  rintro ⟨hp, hq⟩
  unfold isPointInPrimarySubView at hp
  unfold isPointInSecondarySubView at hq
  rw [hx, hy] at hp hq
  simp only [Bool.and_eq_true, decide_eq_true_eq] at hp hq
  unfold rectDisjoint QRectI.intersected QRectI.isNull QRectI.nullRect QRectI.x2 QRectI.y2
    at hdisj
  dsimp only at hdisj
  split_ifs at hdisj <;>
    simp_all only [Bool.or_eq_true, Bool.and_eq_true, beq_iff_eq, decide_eq_true_eq,
      not_or, not_and, not_lt] <;>
    omega

/-- Witness for C6: at an origin viewport with disjoint sub-viewports, a
concrete point is not inside both subviews. -/
theorem C6_disjoint_amended_witness :
    ¬ (isPointInPrimarySubView
         { baseScene with
             primarySubViewport := ⟨0, 0, 10, 10⟩,
             secondarySubViewport := ⟨20, 0, 10, 10⟩ } ⟨25, 5⟩ = true ∧
       isPointInSecondarySubView
         { baseScene with
             primarySubViewport := ⟨0, 0, 10, 10⟩,
             secondarySubViewport := ⟨20, 0, 10, 10⟩ } ⟨25, 5⟩ = true) :=
  C6_disjoint_amended _ _ (by decide) (by decide) (by unfold rectDisjoint; decide)

@[simp] lemma setPrimarySubViewport_windowSize (s : SceneState) (r : QRectI) :
    (setPrimarySubViewport s r).1.windowSize = s.windowSize := by
  unfold setPrimarySubViewport updateGLSubViewports
  dsimp only
  split <;> rfl

@[simp] lemma setPrimarySubViewport_viewport (s : SceneState) (r : QRectI) :
    (setPrimarySubViewport s r).1.viewport = s.viewport := by
  unfold setPrimarySubViewport updateGLSubViewports
  dsimp only
  split <;> rfl

@[simp] lemma setPrimarySubViewport_secondarySubViewport (s : SceneState) (r : QRectI) :
    (setPrimarySubViewport s r).1.secondarySubViewport = s.secondarySubViewport := by
  unfold setPrimarySubViewport updateGLSubViewports
  dsimp only
  split <;> rfl

@[simp] lemma setPrimarySubViewport_isSecondarySubviewOnTop (s : SceneState) (r : QRectI) :
    (setPrimarySubViewport s r).1.isSecondarySubviewOnTop = s.isSecondarySubviewOnTop := by
  unfold setPrimarySubViewport updateGLSubViewports
  dsimp only
  split <;> rfl

@[simp] lemma setPrimarySubViewport_devicePixelRatio (s : SceneState) (r : QRectI) :
    (setPrimarySubViewport s r).1.devicePixelRatio = s.devicePixelRatio := by
  unfold setPrimarySubViewport updateGLSubViewports
  dsimp only
  split <;> rfl

@[simp] lemma setPrimarySubViewport_isSlicingActive (s : SceneState) (r : QRectI) :
    (setPrimarySubViewport s r).1.isSlicingActive = s.isSlicingActive := by
  unfold setPrimarySubViewport updateGLSubViewports
  dsimp only
  split <;> rfl

@[simp] lemma setPrimarySubViewport_selectionQueryPosition (s : SceneState) (r : QRectI) :
    (setPrimarySubViewport s r).1.selectionQueryPosition = s.selectionQueryPosition := by
  unfold setPrimarySubViewport updateGLSubViewports
  dsimp only
  split <;> rfl

@[simp] lemma setSecondarySubViewport_windowSize (s : SceneState) (r : QRectI) :
    (setSecondarySubViewport s r).1.windowSize = s.windowSize := by
  unfold setSecondarySubViewport updateGLSubViewports
  dsimp only
  split <;> rfl

@[simp] lemma setSecondarySubViewport_viewport (s : SceneState) (r : QRectI) :
    (setSecondarySubViewport s r).1.viewport = s.viewport := by
  unfold setSecondarySubViewport updateGLSubViewports
  dsimp only
  split <;> rfl

@[simp] lemma setSecondarySubViewport_primarySubViewport (s : SceneState) (r : QRectI) :
    (setSecondarySubViewport s r).1.primarySubViewport = s.primarySubViewport := by
  unfold setSecondarySubViewport updateGLSubViewports
  dsimp only
  split <;> rfl

@[simp] lemma setSecondarySubViewport_isSecondarySubviewOnTop (s : SceneState) (r : QRectI) :
    (setSecondarySubViewport s r).1.isSecondarySubviewOnTop = s.isSecondarySubviewOnTop := by
  unfold setSecondarySubViewport updateGLSubViewports
  dsimp only
  split <;> rfl

@[simp] lemma setSecondarySubViewport_devicePixelRatio (s : SceneState) (r : QRectI) :
    (setSecondarySubViewport s r).1.devicePixelRatio = s.devicePixelRatio := by
  unfold setSecondarySubViewport updateGLSubViewports
  dsimp only
  split <;> rfl

@[simp] lemma setSecondarySubViewport_isSlicingActive (s : SceneState) (r : QRectI) :
    (setSecondarySubViewport s r).1.isSlicingActive = s.isSlicingActive := by
  unfold setSecondarySubViewport updateGLSubViewports
  dsimp only
  split <;> rfl

@[simp] lemma setSecondarySubViewport_selectionQueryPosition (s : SceneState) (r : QRectI) :
    (setSecondarySubViewport s r).1.selectionQueryPosition = s.selectionQueryPosition := by
  unfold setSecondarySubViewport updateGLSubViewports
  dsimp only
  split <;> rfl

@[simp] lemma setSecondarySubviewOnTop_windowSize (s : SceneState) (b : Bool) :
    (setSecondarySubviewOnTop s b).1.windowSize = s.windowSize := by
  unfold setSecondarySubviewOnTop
  dsimp only
  split <;> rfl

@[simp] lemma setSecondarySubviewOnTop_viewport (s : SceneState) (b : Bool) :
    (setSecondarySubviewOnTop s b).1.viewport = s.viewport := by
  unfold setSecondarySubviewOnTop
  dsimp only
  split <;> rfl

@[simp] lemma setSecondarySubviewOnTop_primarySubViewport (s : SceneState) (b : Bool) :
    (setSecondarySubviewOnTop s b).1.primarySubViewport = s.primarySubViewport := by
  unfold setSecondarySubviewOnTop
  dsimp only
  split <;> rfl

@[simp] lemma setSecondarySubviewOnTop_secondarySubViewport (s : SceneState) (b : Bool) :
    (setSecondarySubviewOnTop s b).1.secondarySubViewport = s.secondarySubViewport := by
  unfold setSecondarySubviewOnTop
  dsimp only
  split <;> rfl

@[simp] lemma setSecondarySubviewOnTop_devicePixelRatio (s : SceneState) (b : Bool) :
    (setSecondarySubviewOnTop s b).1.devicePixelRatio = s.devicePixelRatio := by
  unfold setSecondarySubviewOnTop
  dsimp only
  split <;> rfl

@[simp] lemma setSecondarySubviewOnTop_isSlicingActive (s : SceneState) (b : Bool) :
    (setSecondarySubviewOnTop s b).1.isSlicingActive = s.isSlicingActive := by
  unfold setSecondarySubviewOnTop
  dsimp only
  split <;> rfl

@[simp] lemma setSecondarySubviewOnTop_selectionQueryPosition (s : SceneState) (b : Bool) :
    (setSecondarySubviewOnTop s b).1.selectionQueryPosition = s.selectionQueryPosition := by
  unfold setSecondarySubviewOnTop
  dsimp only
  split <;> rfl

@[simp] lemma setSelectionQueryPosition_windowSize (s : SceneState) (p : QPointI) :
    (setSelectionQueryPosition s p).1.windowSize = s.windowSize := by
  unfold setSelectionQueryPosition
  dsimp only
  split <;> rfl

@[simp] lemma setSelectionQueryPosition_viewport (s : SceneState) (p : QPointI) :
    (setSelectionQueryPosition s p).1.viewport = s.viewport := by
  unfold setSelectionQueryPosition
  dsimp only
  split <;> rfl

@[simp] lemma setSelectionQueryPosition_primarySubViewport (s : SceneState) (p : QPointI) :
    (setSelectionQueryPosition s p).1.primarySubViewport = s.primarySubViewport := by
  unfold setSelectionQueryPosition
  dsimp only
  split <;> rfl

@[simp] lemma setSelectionQueryPosition_secondarySubViewport (s : SceneState) (p : QPointI) :
    (setSelectionQueryPosition s p).1.secondarySubViewport = s.secondarySubViewport := by
  unfold setSelectionQueryPosition
  dsimp only
  split <;> rfl

@[simp] lemma setSelectionQueryPosition_isSecondarySubviewOnTop (s : SceneState) (p : QPointI) :
    (setSelectionQueryPosition s p).1.isSecondarySubviewOnTop = s.isSecondarySubviewOnTop := by
  unfold setSelectionQueryPosition
  dsimp only
  split <;> rfl

@[simp] lemma setSelectionQueryPosition_devicePixelRatio (s : SceneState) (p : QPointI) :
    (setSelectionQueryPosition s p).1.devicePixelRatio = s.devicePixelRatio := by
  unfold setSelectionQueryPosition
  dsimp only
  split <;> rfl

@[simp] lemma setSelectionQueryPosition_isSlicingActive (s : SceneState) (p : QPointI) :
    (setSelectionQueryPosition s p).1.isSlicingActive = s.isSlicingActive := by
  unfold setSelectionQueryPosition
  dsimp only
  split <;> rfl

@[simp] lemma updateGLViewport_windowSize (s : SceneState) :
    (updateGLViewport s).1.windowSize = s.windowSize := rfl

@[simp] lemma updateGLViewport_viewport (s : SceneState) :
    (updateGLViewport s).1.viewport = s.viewport := rfl

@[simp] lemma updateGLViewport_primarySubViewport (s : SceneState) :
    (updateGLViewport s).1.primarySubViewport = s.primarySubViewport := rfl

@[simp] lemma updateGLViewport_secondarySubViewport (s : SceneState) :
    (updateGLViewport s).1.secondarySubViewport = s.secondarySubViewport := rfl

@[simp] lemma updateGLViewport_isSecondarySubviewOnTop (s : SceneState) :
    (updateGLViewport s).1.isSecondarySubviewOnTop = s.isSecondarySubviewOnTop := rfl

@[simp] lemma updateGLViewport_devicePixelRatio (s : SceneState) :
    (updateGLViewport s).1.devicePixelRatio = s.devicePixelRatio := rfl

@[simp] lemma updateGLViewport_isSlicingActive (s : SceneState) :
    (updateGLViewport s).1.isSlicingActive = s.isSlicingActive := rfl

@[simp] lemma updateGLViewport_selectionQueryPosition (s : SceneState) :
    (updateGLViewport s).1.selectionQueryPosition = s.selectionQueryPosition := rfl

@[simp] lemma calculateSubViewports_windowSize (s : SceneState) :
    (calculateSubViewports s).1.windowSize = s.windowSize := by
  unfold calculateSubViewports
  dsimp only
  split <;> simp

@[simp] lemma calculateSubViewports_viewport (s : SceneState) :
    (calculateSubViewports s).1.viewport = s.viewport := by
  unfold calculateSubViewports
  dsimp only
  split <;> simp

@[simp] lemma calculateSubViewports_isSecondarySubviewOnTop (s : SceneState) :
    (calculateSubViewports s).1.isSecondarySubviewOnTop = s.isSecondarySubviewOnTop := by
  unfold calculateSubViewports
  dsimp only
  split <;> simp

@[simp] lemma calculateSubViewports_devicePixelRatio (s : SceneState) :
    (calculateSubViewports s).1.devicePixelRatio = s.devicePixelRatio := by
  unfold calculateSubViewports
  dsimp only
  split <;> simp

@[simp] lemma calculateSubViewports_isSlicingActive (s : SceneState) :
    (calculateSubViewports s).1.isSlicingActive = s.isSlicingActive := by
  unfold calculateSubViewports
  dsimp only
  split <;> simp

@[simp] lemma calculateSubViewports_selectionQueryPosition (s : SceneState) :
    (calculateSubViewports s).1.selectionQueryPosition = s.selectionQueryPosition := by
  unfold calculateSubViewports
  dsimp only
  split <;> simp

@[simp] lemma setViewportPrivate_windowSize (s : SceneState) (v : QRectI) :
    (setViewportPrivate s v).1.windowSize = s.windowSize := by
  unfold setViewportPrivate
  dsimp only
  split <;> simp

@[simp] lemma setViewportPrivate_isSecondarySubviewOnTop (s : SceneState) (v : QRectI) :
    (setViewportPrivate s v).1.isSecondarySubviewOnTop = s.isSecondarySubviewOnTop := by
  unfold setViewportPrivate
  dsimp only
  split <;> simp

@[simp] lemma setViewportPrivate_devicePixelRatio (s : SceneState) (v : QRectI) :
    (setViewportPrivate s v).1.devicePixelRatio = s.devicePixelRatio := by
  unfold setViewportPrivate
  dsimp only
  split <;> simp

@[simp] lemma setViewportPrivate_isSlicingActive (s : SceneState) (v : QRectI) :
    (setViewportPrivate s v).1.isSlicingActive = s.isSlicingActive := by
  unfold setViewportPrivate
  dsimp only
  split <;> simp

@[simp] lemma setViewportPrivate_selectionQueryPosition (s : SceneState) (v : QRectI) :
    (setViewportPrivate s v).1.selectionQueryPosition = s.selectionQueryPosition := by
  unfold setViewportPrivate
  dsimp only
  split <;> simp

@[simp] lemma setWindowSize_viewport (s : SceneState) (size : QSizeI) :
    (setWindowSize s size).1.viewport = s.viewport := by
  unfold setWindowSize
  dsimp only
  split <;> simp

@[simp] lemma setWindowSize_primarySubViewport (s : SceneState) (size : QSizeI) :
    (setWindowSize s size).1.primarySubViewport = s.primarySubViewport := by
  unfold setWindowSize
  dsimp only
  split <;> simp

@[simp] lemma setWindowSize_secondarySubViewport (s : SceneState) (size : QSizeI) :
    (setWindowSize s size).1.secondarySubViewport = s.secondarySubViewport := by
  unfold setWindowSize
  dsimp only
  split <;> simp

@[simp] lemma setWindowSize_isSecondarySubviewOnTop (s : SceneState) (size : QSizeI) :
    (setWindowSize s size).1.isSecondarySubviewOnTop = s.isSecondarySubviewOnTop := by
  unfold setWindowSize
  dsimp only
  split <;> simp

@[simp] lemma setWindowSize_devicePixelRatio (s : SceneState) (size : QSizeI) :
    (setWindowSize s size).1.devicePixelRatio = s.devicePixelRatio := by
  unfold setWindowSize
  dsimp only
  split <;> simp

@[simp] lemma setWindowSize_isSlicingActive (s : SceneState) (size : QSizeI) :
    (setWindowSize s size).1.isSlicingActive = s.isSlicingActive := by
  unfold setWindowSize
  dsimp only
  split <;> simp

@[simp] lemma setWindowSize_selectionQueryPosition (s : SceneState) (size : QSizeI) :
    (setWindowSize s size).1.selectionQueryPosition = s.selectionQueryPosition := by
  unfold setWindowSize
  dsimp only
  split <;> simp

@[simp] lemma setSlicingActive_windowSize (s : SceneState) (b : Bool) :
    (setSlicingActive s b).1.windowSize = s.windowSize := by
  unfold setSlicingActive
  dsimp only
  split <;> simp

@[simp] lemma setSlicingActive_viewport (s : SceneState) (b : Bool) :
    (setSlicingActive s b).1.viewport = s.viewport := by
  unfold setSlicingActive
  dsimp only
  split <;> simp

@[simp] lemma setSlicingActive_isSecondarySubviewOnTop (s : SceneState) (b : Bool) :
    (setSlicingActive s b).1.isSecondarySubviewOnTop = s.isSecondarySubviewOnTop := by
  unfold setSlicingActive
  dsimp only
  split <;> simp

@[simp] lemma setSlicingActive_devicePixelRatio (s : SceneState) (b : Bool) :
    (setSlicingActive s b).1.devicePixelRatio = s.devicePixelRatio := by
  unfold setSlicingActive
  dsimp only
  split <;> simp

@[simp] lemma setSlicingActive_selectionQueryPosition (s : SceneState) (b : Bool) :
    (setSlicingActive s b).1.selectionQueryPosition = s.selectionQueryPosition := by
  unfold setSlicingActive
  dsimp only
  split <;> simp

@[simp] lemma setDevicePixelRatio_windowSize (s : SceneState) (q : ℚ) :
    (setDevicePixelRatio s q).1.windowSize = s.windowSize := by
  unfold setDevicePixelRatio
  dsimp only
  split <;> simp

@[simp] lemma setDevicePixelRatio_viewport (s : SceneState) (q : ℚ) :
    (setDevicePixelRatio s q).1.viewport = s.viewport := by
  unfold setDevicePixelRatio
  dsimp only
  split <;> simp

@[simp] lemma setDevicePixelRatio_primarySubViewport (s : SceneState) (q : ℚ) :
    (setDevicePixelRatio s q).1.primarySubViewport = s.primarySubViewport := by
  unfold setDevicePixelRatio
  dsimp only
  split <;> simp

@[simp] lemma setDevicePixelRatio_secondarySubViewport (s : SceneState) (q : ℚ) :
    (setDevicePixelRatio s q).1.secondarySubViewport = s.secondarySubViewport := by
  unfold setDevicePixelRatio
  dsimp only
  split <;> simp

@[simp] lemma setDevicePixelRatio_isSecondarySubviewOnTop (s : SceneState) (q : ℚ) :
    (setDevicePixelRatio s q).1.isSecondarySubviewOnTop = s.isSecondarySubviewOnTop := by
  unfold setDevicePixelRatio
  dsimp only
  split <;> simp

@[simp] lemma setDevicePixelRatio_isSlicingActive (s : SceneState) (q : ℚ) :
    (setDevicePixelRatio s q).1.isSlicingActive = s.isSlicingActive := by
  unfold setDevicePixelRatio
  dsimp only
  split <;> simp

@[simp] lemma setDevicePixelRatio_selectionQueryPosition (s : SceneState) (q : ℚ) :
    (setDevicePixelRatio s q).1.selectionQueryPosition = s.selectionQueryPosition := by
  unfold setDevicePixelRatio
  dsimp only
  split <;> simp

@[simp] lemma setWindowSize_val (s : SceneState) (size : QSizeI) :
    (setWindowSize s size).1.windowSize = size := by
  unfold setWindowSize
  dsimp only
  split
  · rfl
  · next h => push_neg at h; exact h

@[simp] lemma setViewportPrivate_val (s : SceneState) (v : QRectI) :
    (setViewportPrivate s v).1.viewport = v := by
  unfold setViewportPrivate
  dsimp only
  split
  · simp
  · next h => push_neg at h; exact h

@[simp] lemma setSecondarySubviewOnTop_val (s : SceneState) (b : Bool) :
    (setSecondarySubviewOnTop s b).1.isSecondarySubviewOnTop = b := by
  unfold setSecondarySubviewOnTop
  dsimp only
  split
  · rfl
  · next h => push_neg at h; exact h

@[simp] lemma setSelectionQueryPosition_val (s : SceneState) (p : QPointI) :
    (setSelectionQueryPosition s p).1.selectionQueryPosition = p := by
  unfold setSelectionQueryPosition
  dsimp only
  split
  · rfl
  · next h => push_neg at h; exact h.symm

@[simp] lemma setSlicingActive_val (s : SceneState) (b : Bool) :
    (setSlicingActive s b).1.isSlicingActive = b := by
  unfold setSlicingActive
  dsimp only
  split
  · simp
  · next h => push_neg at h; exact h

@[simp] lemma setDevicePixelRatio_val (s : SceneState) (q : ℚ) :
    (setDevicePixelRatio s q).1.devicePixelRatio = q := by
  unfold setDevicePixelRatio
  dsimp only
  split
  · rfl
  · next h => push_neg at h; exact h


lemma clearNoop_windowSizeChanged (tr : Q3DSceneChangeBitField) (h : tr.windowSizeChanged = false) :
    { tr with windowSizeChanged := false } = tr := by
  cases tr
  simp_all

lemma clearNoop_viewportChanged (tr : Q3DSceneChangeBitField) (h : tr.viewportChanged = false) :
    { tr with viewportChanged := false } = tr := by
  cases tr
  simp_all

lemma clearNoop_subViewportOrderChanged (tr : Q3DSceneChangeBitField) (h : tr.subViewportOrderChanged = false) :
    { tr with subViewportOrderChanged := false } = tr := by
  cases tr
  simp_all

lemma clearNoop_primarySubViewportChanged (tr : Q3DSceneChangeBitField) (h : tr.primarySubViewportChanged = false) :
    { tr with primarySubViewportChanged := false } = tr := by
  cases tr
  simp_all

lemma clearNoop_secondarySubViewportChanged (tr : Q3DSceneChangeBitField) (h : tr.secondarySubViewportChanged = false) :
    { tr with secondarySubViewportChanged := false } = tr := by
  cases tr
  simp_all

lemma clearNoop_selectionQueryPositionChanged (tr : Q3DSceneChangeBitField) (h : tr.selectionQueryPositionChanged = false) :
    { tr with selectionQueryPositionChanged := false } = tr := by
  cases tr
  simp_all

lemma clearNoop_cameraChanged (tr : Q3DSceneChangeBitField) (h : tr.cameraChanged = false) :
    { tr with cameraChanged := false } = tr := by
  cases tr
  simp_all

lemma clearNoop_lightChanged (tr : Q3DSceneChangeBitField) (h : tr.lightChanged = false) :
    { tr with lightChanged := false } = tr := by
  cases tr
  simp_all

lemma clearNoop_slicingActivatedChanged (tr : Q3DSceneChangeBitField) (h : tr.slicingActivatedChanged = false) :
    { tr with slicingActivatedChanged := false } = tr := by
  cases tr
  simp_all

lemma clearNoop_devicePixelRatioChanged (tr : Q3DSceneChangeBitField) (h : tr.devicePixelRatioChanged = false) :
    { tr with devicePixelRatioChanged := false } = tr := by
  cases tr
  simp_all

lemma sceneSetTrackerSelf (u : SceneState) :
    { u with changeTracker := u.changeTracker } = u := by
  cases u
  rfl

lemma sceneSetDirtyNoop (u : SceneState) (h : u.sceneDirty = false) :
    { u with sceneDirty := false } = u := by
  cases u
  simp_all

@[simp] lemma syncWindowSize_fst (st : SceneState × SceneState) :
    (syncWindowSize st).1 =
      { st.1 with changeTracker := { st.1.changeTracker with windowSizeChanged := false } } := by
  unfold syncWindowSize
  dsimp only
  split
  · rfl
  · next h =>
    simp only [Bool.not_eq_true] at h
    rw [clearNoop_windowSizeChanged _ h, sceneSetTrackerSelf]

@[simp] lemma syncViewport_fst (st : SceneState × SceneState) :
    (syncViewport st).1 =
      { st.1 with changeTracker := { st.1.changeTracker with viewportChanged := false } } := by
  unfold syncViewport
  dsimp only
  split
  · rfl
  · next h =>
    simp only [Bool.not_eq_true] at h
    rw [clearNoop_viewportChanged _ h, sceneSetTrackerSelf]

@[simp] lemma syncSubViewportOrder_fst (st : SceneState × SceneState) :
    (syncSubViewportOrder st).1 =
      { st.1 with changeTracker := { st.1.changeTracker with subViewportOrderChanged := false } } := by
  unfold syncSubViewportOrder
  dsimp only
  split
  · rfl
  · next h =>
    simp only [Bool.not_eq_true] at h
    rw [clearNoop_subViewportOrderChanged _ h, sceneSetTrackerSelf]

@[simp] lemma syncPrimarySubViewport_fst (st : SceneState × SceneState) :
    (syncPrimarySubViewport st).1 =
      { st.1 with changeTracker := { st.1.changeTracker with primarySubViewportChanged := false } } := by
  unfold syncPrimarySubViewport
  dsimp only
  split
  · rfl
  · next h =>
    simp only [Bool.not_eq_true] at h
    rw [clearNoop_primarySubViewportChanged _ h, sceneSetTrackerSelf]

@[simp] lemma syncSecondarySubViewport_fst (st : SceneState × SceneState) :
    (syncSecondarySubViewport st).1 =
      { st.1 with changeTracker := { st.1.changeTracker with secondarySubViewportChanged := false } } := by
  unfold syncSecondarySubViewport
  dsimp only
  split
  · rfl
  · next h =>
    simp only [Bool.not_eq_true] at h
    rw [clearNoop_secondarySubViewportChanged _ h, sceneSetTrackerSelf]

@[simp] lemma syncSelectionQueryPosition_fst (st : SceneState × SceneState) :
    (syncSelectionQueryPosition st).1 =
      { st.1 with changeTracker := { st.1.changeTracker with selectionQueryPositionChanged := false } } := by
  unfold syncSelectionQueryPosition
  dsimp only
  split
  · rfl
  · next h =>
    simp only [Bool.not_eq_true] at h
    rw [clearNoop_selectionQueryPositionChanged _ h, sceneSetTrackerSelf]

@[simp] lemma syncCameraFlag_fst (st : SceneState × SceneState) :
    (syncCameraFlag st).1 =
      { st.1 with changeTracker := { st.1.changeTracker with cameraChanged := false } } := by
  unfold syncCameraFlag
  dsimp only
  split
  · rfl
  · next h =>
    simp only [Bool.not_eq_true] at h
    rw [clearNoop_cameraChanged _ h, sceneSetTrackerSelf]

@[simp] lemma syncLightFlag_fst (st : SceneState × SceneState) :
    (syncLightFlag st).1 =
      { st.1 with changeTracker := { st.1.changeTracker with lightChanged := false } } := by
  unfold syncLightFlag
  dsimp only
  split
  · rfl
  · next h =>
    simp only [Bool.not_eq_true] at h
    rw [clearNoop_lightChanged _ h, sceneSetTrackerSelf]

@[simp] lemma syncSlicingActivated_fst (st : SceneState × SceneState) :
    (syncSlicingActivated st).1 =
      { st.1 with changeTracker := { st.1.changeTracker with slicingActivatedChanged := false } } := by
  unfold syncSlicingActivated
  dsimp only
  split
  · rfl
  · next h =>
    simp only [Bool.not_eq_true] at h
    rw [clearNoop_slicingActivatedChanged _ h, sceneSetTrackerSelf]

@[simp] lemma syncDevicePixelRatio_fst (st : SceneState × SceneState) :
    (syncDevicePixelRatio st).1 =
      { st.1 with changeTracker := { st.1.changeTracker with devicePixelRatioChanged := false } } := by
  unfold syncDevicePixelRatio
  dsimp only
  split
  · rfl
  · next h =>
    simp only [Bool.not_eq_true] at h
    rw [clearNoop_devicePixelRatioChanged _ h, sceneSetTrackerSelf]

@[simp] lemma syncWindowSize_snd_windowSize (st : SceneState × SceneState) :
    (syncWindowSize st).2.windowSize =
      (if st.1.changeTracker.windowSizeChanged then st.1.windowSize else st.2.windowSize) := by
  unfold syncWindowSize
  dsimp only
  split
  · next h => simp [h]
  · next h => simp [h]

@[simp] lemma syncWindowSize_snd_viewport (st : SceneState × SceneState) :
    (syncWindowSize st).2.viewport = st.2.viewport := by
  unfold syncWindowSize
  dsimp only
  split
  · simp
  · rfl

@[simp] lemma syncWindowSize_snd_isSecondarySubviewOnTop (st : SceneState × SceneState) :
    (syncWindowSize st).2.isSecondarySubviewOnTop = st.2.isSecondarySubviewOnTop := by
  unfold syncWindowSize
  dsimp only
  split
  · simp
  · rfl

@[simp] lemma syncWindowSize_snd_selectionQueryPosition (st : SceneState × SceneState) :
    (syncWindowSize st).2.selectionQueryPosition = st.2.selectionQueryPosition := by
  unfold syncWindowSize
  dsimp only
  split
  · simp
  · rfl

@[simp] lemma syncWindowSize_snd_isSlicingActive (st : SceneState × SceneState) :
    (syncWindowSize st).2.isSlicingActive = st.2.isSlicingActive := by
  unfold syncWindowSize
  dsimp only
  split
  · simp
  · rfl

@[simp] lemma syncWindowSize_snd_devicePixelRatio (st : SceneState × SceneState) :
    (syncWindowSize st).2.devicePixelRatio = st.2.devicePixelRatio := by
  unfold syncWindowSize
  dsimp only
  split
  · simp
  · rfl

@[simp] lemma syncViewport_snd_windowSize (st : SceneState × SceneState) :
    (syncViewport st).2.windowSize = st.2.windowSize := by
  unfold syncViewport
  dsimp only
  split
  · simp
  · rfl

@[simp] lemma syncViewport_snd_viewport (st : SceneState × SceneState) :
    (syncViewport st).2.viewport =
      (if st.1.changeTracker.viewportChanged then st.1.viewport else st.2.viewport) := by
  unfold syncViewport
  dsimp only
  split
  · next h => simp [h]
  · next h => simp [h]

@[simp] lemma syncViewport_snd_isSecondarySubviewOnTop (st : SceneState × SceneState) :
    (syncViewport st).2.isSecondarySubviewOnTop = st.2.isSecondarySubviewOnTop := by
  unfold syncViewport
  dsimp only
  split
  · simp
  · rfl

@[simp] lemma syncViewport_snd_selectionQueryPosition (st : SceneState × SceneState) :
    (syncViewport st).2.selectionQueryPosition = st.2.selectionQueryPosition := by
  unfold syncViewport
  dsimp only
  split
  · simp
  · rfl

@[simp] lemma syncViewport_snd_isSlicingActive (st : SceneState × SceneState) :
    (syncViewport st).2.isSlicingActive = st.2.isSlicingActive := by
  unfold syncViewport
  dsimp only
  split
  · simp
  · rfl

@[simp] lemma syncViewport_snd_devicePixelRatio (st : SceneState × SceneState) :
    (syncViewport st).2.devicePixelRatio = st.2.devicePixelRatio := by
  unfold syncViewport
  dsimp only
  split
  · simp
  · rfl

@[simp] lemma syncSubViewportOrder_snd_windowSize (st : SceneState × SceneState) :
    (syncSubViewportOrder st).2.windowSize = st.2.windowSize := by
  unfold syncSubViewportOrder
  dsimp only
  split
  · simp
  · rfl

@[simp] lemma syncSubViewportOrder_snd_viewport (st : SceneState × SceneState) :
    (syncSubViewportOrder st).2.viewport = st.2.viewport := by
  unfold syncSubViewportOrder
  dsimp only
  split
  · simp
  · rfl

@[simp] lemma syncSubViewportOrder_snd_isSecondarySubviewOnTop (st : SceneState × SceneState) :
    (syncSubViewportOrder st).2.isSecondarySubviewOnTop =
      (if st.1.changeTracker.subViewportOrderChanged then st.1.isSecondarySubviewOnTop else st.2.isSecondarySubviewOnTop) := by
  unfold syncSubViewportOrder
  dsimp only
  split
  · next h => simp [h]
  · next h => simp [h]

@[simp] lemma syncSubViewportOrder_snd_selectionQueryPosition (st : SceneState × SceneState) :
    (syncSubViewportOrder st).2.selectionQueryPosition = st.2.selectionQueryPosition := by
  unfold syncSubViewportOrder
  dsimp only
  split
  · simp
  · rfl

@[simp] lemma syncSubViewportOrder_snd_isSlicingActive (st : SceneState × SceneState) :
    (syncSubViewportOrder st).2.isSlicingActive = st.2.isSlicingActive := by
  unfold syncSubViewportOrder
  dsimp only
  split
  · simp
  · rfl

@[simp] lemma syncSubViewportOrder_snd_devicePixelRatio (st : SceneState × SceneState) :
    (syncSubViewportOrder st).2.devicePixelRatio = st.2.devicePixelRatio := by
  unfold syncSubViewportOrder
  dsimp only
  split
  · simp
  · rfl

@[simp] lemma syncPrimarySubViewport_snd_windowSize (st : SceneState × SceneState) :
    (syncPrimarySubViewport st).2.windowSize = st.2.windowSize := by
  unfold syncPrimarySubViewport
  dsimp only
  split
  · simp
  · rfl

@[simp] lemma syncPrimarySubViewport_snd_viewport (st : SceneState × SceneState) :
    (syncPrimarySubViewport st).2.viewport = st.2.viewport := by
  unfold syncPrimarySubViewport
  dsimp only
  split
  · simp
  · rfl

@[simp] lemma syncPrimarySubViewport_snd_isSecondarySubviewOnTop (st : SceneState × SceneState) :
    (syncPrimarySubViewport st).2.isSecondarySubviewOnTop = st.2.isSecondarySubviewOnTop := by
  unfold syncPrimarySubViewport
  dsimp only
  split
  · simp
  · rfl

@[simp] lemma syncPrimarySubViewport_snd_selectionQueryPosition (st : SceneState × SceneState) :
    (syncPrimarySubViewport st).2.selectionQueryPosition = st.2.selectionQueryPosition := by
  unfold syncPrimarySubViewport
  dsimp only
  split
  · simp
  · rfl

@[simp] lemma syncPrimarySubViewport_snd_isSlicingActive (st : SceneState × SceneState) :
    (syncPrimarySubViewport st).2.isSlicingActive = st.2.isSlicingActive := by
  unfold syncPrimarySubViewport
  dsimp only
  split
  · simp
  · rfl

@[simp] lemma syncPrimarySubViewport_snd_devicePixelRatio (st : SceneState × SceneState) :
    (syncPrimarySubViewport st).2.devicePixelRatio = st.2.devicePixelRatio := by
  unfold syncPrimarySubViewport
  dsimp only
  split
  · simp
  · rfl

@[simp] lemma syncSecondarySubViewport_snd_windowSize (st : SceneState × SceneState) :
    (syncSecondarySubViewport st).2.windowSize = st.2.windowSize := by
  unfold syncSecondarySubViewport
  dsimp only
  split
  · simp
  · rfl

@[simp] lemma syncSecondarySubViewport_snd_viewport (st : SceneState × SceneState) :
    (syncSecondarySubViewport st).2.viewport = st.2.viewport := by
  unfold syncSecondarySubViewport
  dsimp only
  split
  · simp
  · rfl

@[simp] lemma syncSecondarySubViewport_snd_isSecondarySubviewOnTop (st : SceneState × SceneState) :
    (syncSecondarySubViewport st).2.isSecondarySubviewOnTop = st.2.isSecondarySubviewOnTop := by
  unfold syncSecondarySubViewport
  dsimp only
  split
  · simp
  · rfl

@[simp] lemma syncSecondarySubViewport_snd_selectionQueryPosition (st : SceneState × SceneState) :
    (syncSecondarySubViewport st).2.selectionQueryPosition = st.2.selectionQueryPosition := by
  unfold syncSecondarySubViewport
  dsimp only
  split
  · simp
  · rfl

@[simp] lemma syncSecondarySubViewport_snd_isSlicingActive (st : SceneState × SceneState) :
    (syncSecondarySubViewport st).2.isSlicingActive = st.2.isSlicingActive := by
  unfold syncSecondarySubViewport
  dsimp only
  split
  · simp
  · rfl

@[simp] lemma syncSecondarySubViewport_snd_devicePixelRatio (st : SceneState × SceneState) :
    (syncSecondarySubViewport st).2.devicePixelRatio = st.2.devicePixelRatio := by
  unfold syncSecondarySubViewport
  dsimp only
  split
  · simp
  · rfl

@[simp] lemma syncSelectionQueryPosition_snd_windowSize (st : SceneState × SceneState) :
    (syncSelectionQueryPosition st).2.windowSize = st.2.windowSize := by
  unfold syncSelectionQueryPosition
  dsimp only
  split
  · simp
  · rfl

@[simp] lemma syncSelectionQueryPosition_snd_viewport (st : SceneState × SceneState) :
    (syncSelectionQueryPosition st).2.viewport = st.2.viewport := by
  unfold syncSelectionQueryPosition
  dsimp only
  split
  · simp
  · rfl

@[simp] lemma syncSelectionQueryPosition_snd_isSecondarySubviewOnTop (st : SceneState × SceneState) :
    (syncSelectionQueryPosition st).2.isSecondarySubviewOnTop = st.2.isSecondarySubviewOnTop := by
  unfold syncSelectionQueryPosition
  dsimp only
  split
  · simp
  · rfl

@[simp] lemma syncSelectionQueryPosition_snd_selectionQueryPosition (st : SceneState × SceneState) :
    (syncSelectionQueryPosition st).2.selectionQueryPosition =
      (if st.1.changeTracker.selectionQueryPositionChanged then st.1.selectionQueryPosition else st.2.selectionQueryPosition) := by
  unfold syncSelectionQueryPosition
  dsimp only
  split
  · next h => simp [h]
  · next h => simp [h]

@[simp] lemma syncSelectionQueryPosition_snd_isSlicingActive (st : SceneState × SceneState) :
    (syncSelectionQueryPosition st).2.isSlicingActive = st.2.isSlicingActive := by
  unfold syncSelectionQueryPosition
  dsimp only
  split
  · simp
  · rfl

@[simp] lemma syncSelectionQueryPosition_snd_devicePixelRatio (st : SceneState × SceneState) :
    (syncSelectionQueryPosition st).2.devicePixelRatio = st.2.devicePixelRatio := by
  unfold syncSelectionQueryPosition
  dsimp only
  split
  · simp
  · rfl

@[simp] lemma syncCameraFlag_snd_windowSize (st : SceneState × SceneState) :
    (syncCameraFlag st).2.windowSize = st.2.windowSize := by
  unfold syncCameraFlag
  dsimp only
  split
  · simp
  · rfl

@[simp] lemma syncCameraFlag_snd_viewport (st : SceneState × SceneState) :
    (syncCameraFlag st).2.viewport = st.2.viewport := by
  unfold syncCameraFlag
  dsimp only
  split
  · simp
  · rfl

@[simp] lemma syncCameraFlag_snd_isSecondarySubviewOnTop (st : SceneState × SceneState) :
    (syncCameraFlag st).2.isSecondarySubviewOnTop = st.2.isSecondarySubviewOnTop := by
  unfold syncCameraFlag
  dsimp only
  split
  · simp
  · rfl

@[simp] lemma syncCameraFlag_snd_selectionQueryPosition (st : SceneState × SceneState) :
    (syncCameraFlag st).2.selectionQueryPosition = st.2.selectionQueryPosition := by
  unfold syncCameraFlag
  dsimp only
  split
  · simp
  · rfl

@[simp] lemma syncCameraFlag_snd_isSlicingActive (st : SceneState × SceneState) :
    (syncCameraFlag st).2.isSlicingActive = st.2.isSlicingActive := by
  unfold syncCameraFlag
  dsimp only
  split
  · simp
  · rfl

@[simp] lemma syncCameraFlag_snd_devicePixelRatio (st : SceneState × SceneState) :
    (syncCameraFlag st).2.devicePixelRatio = st.2.devicePixelRatio := by
  unfold syncCameraFlag
  dsimp only
  split
  · simp
  · rfl

@[simp] lemma syncLightFlag_snd_windowSize (st : SceneState × SceneState) :
    (syncLightFlag st).2.windowSize = st.2.windowSize := by
  unfold syncLightFlag
  dsimp only
  split
  · simp
  · rfl

@[simp] lemma syncLightFlag_snd_viewport (st : SceneState × SceneState) :
    (syncLightFlag st).2.viewport = st.2.viewport := by
  unfold syncLightFlag
  dsimp only
  split
  · simp
  · rfl

@[simp] lemma syncLightFlag_snd_isSecondarySubviewOnTop (st : SceneState × SceneState) :
    (syncLightFlag st).2.isSecondarySubviewOnTop = st.2.isSecondarySubviewOnTop := by
  unfold syncLightFlag
  dsimp only
  split
  · simp
  · rfl

@[simp] lemma syncLightFlag_snd_selectionQueryPosition (st : SceneState × SceneState) :
    (syncLightFlag st).2.selectionQueryPosition = st.2.selectionQueryPosition := by
  unfold syncLightFlag
  dsimp only
  split
  · simp
  · rfl

@[simp] lemma syncLightFlag_snd_isSlicingActive (st : SceneState × SceneState) :
    (syncLightFlag st).2.isSlicingActive = st.2.isSlicingActive := by
  unfold syncLightFlag
  dsimp only
  split
  · simp
  · rfl

@[simp] lemma syncLightFlag_snd_devicePixelRatio (st : SceneState × SceneState) :
    (syncLightFlag st).2.devicePixelRatio = st.2.devicePixelRatio := by
  unfold syncLightFlag
  dsimp only
  split
  · simp
  · rfl

@[simp] lemma syncSlicingActivated_snd_windowSize (st : SceneState × SceneState) :
    (syncSlicingActivated st).2.windowSize = st.2.windowSize := by
  unfold syncSlicingActivated
  dsimp only
  split
  · simp
  · rfl

@[simp] lemma syncSlicingActivated_snd_viewport (st : SceneState × SceneState) :
    (syncSlicingActivated st).2.viewport = st.2.viewport := by
  unfold syncSlicingActivated
  dsimp only
  split
  · simp
  · rfl

@[simp] lemma syncSlicingActivated_snd_isSecondarySubviewOnTop (st : SceneState × SceneState) :
    (syncSlicingActivated st).2.isSecondarySubviewOnTop = st.2.isSecondarySubviewOnTop := by
  unfold syncSlicingActivated
  dsimp only
  split
  · simp
  · rfl

@[simp] lemma syncSlicingActivated_snd_selectionQueryPosition (st : SceneState × SceneState) :
    (syncSlicingActivated st).2.selectionQueryPosition = st.2.selectionQueryPosition := by
  unfold syncSlicingActivated
  dsimp only
  split
  · simp
  · rfl

@[simp] lemma syncSlicingActivated_snd_isSlicingActive (st : SceneState × SceneState) :
    (syncSlicingActivated st).2.isSlicingActive =
      (if st.1.changeTracker.slicingActivatedChanged then st.1.isSlicingActive else st.2.isSlicingActive) := by
  unfold syncSlicingActivated
  dsimp only
  split
  · next h => simp [h]
  · next h => simp [h]

@[simp] lemma syncSlicingActivated_snd_devicePixelRatio (st : SceneState × SceneState) :
    (syncSlicingActivated st).2.devicePixelRatio = st.2.devicePixelRatio := by
  unfold syncSlicingActivated
  dsimp only
  split
  · simp
  · rfl

@[simp] lemma syncDevicePixelRatio_snd_windowSize (st : SceneState × SceneState) :
    (syncDevicePixelRatio st).2.windowSize = st.2.windowSize := by
  unfold syncDevicePixelRatio
  dsimp only
  split
  · simp
  · rfl

@[simp] lemma syncDevicePixelRatio_snd_viewport (st : SceneState × SceneState) :
    (syncDevicePixelRatio st).2.viewport = st.2.viewport := by
  unfold syncDevicePixelRatio
  dsimp only
  split
  · simp
  · rfl

@[simp] lemma syncDevicePixelRatio_snd_isSecondarySubviewOnTop (st : SceneState × SceneState) :
    (syncDevicePixelRatio st).2.isSecondarySubviewOnTop = st.2.isSecondarySubviewOnTop := by
  unfold syncDevicePixelRatio
  dsimp only
  split
  · simp
  · rfl

@[simp] lemma syncDevicePixelRatio_snd_selectionQueryPosition (st : SceneState × SceneState) :
    (syncDevicePixelRatio st).2.selectionQueryPosition = st.2.selectionQueryPosition := by
  unfold syncDevicePixelRatio
  dsimp only
  split
  · simp
  · rfl

@[simp] lemma syncDevicePixelRatio_snd_isSlicingActive (st : SceneState × SceneState) :
    (syncDevicePixelRatio st).2.isSlicingActive = st.2.isSlicingActive := by
  unfold syncDevicePixelRatio
  dsimp only
  split
  · simp
  · rfl

@[simp] lemma syncDevicePixelRatio_snd_devicePixelRatio (st : SceneState × SceneState) :
    (syncDevicePixelRatio st).2.devicePixelRatio =
      (if st.1.changeTracker.devicePixelRatioChanged then st.1.devicePixelRatio else st.2.devicePixelRatio) := by
  unfold syncDevicePixelRatio
  dsimp only
  split
  · next h => simp [h]
  · next h => simp [h]

lemma syncWindowSize_skip (st : SceneState × SceneState)
    (h : st.1.changeTracker.windowSizeChanged = false) : syncWindowSize st = st := by
  unfold syncWindowSize
  dsimp only
  rw [if_neg (by simp [h])]

lemma syncViewport_skip (st : SceneState × SceneState)
    (h : st.1.changeTracker.viewportChanged = false) : syncViewport st = st := by
  unfold syncViewport
  dsimp only
  rw [if_neg (by simp [h])]

lemma syncSubViewportOrder_skip (st : SceneState × SceneState)
    (h : st.1.changeTracker.subViewportOrderChanged = false) : syncSubViewportOrder st = st := by
  unfold syncSubViewportOrder
  dsimp only
  rw [if_neg (by simp [h])]

lemma syncPrimarySubViewport_skip (st : SceneState × SceneState)
    (h : st.1.changeTracker.primarySubViewportChanged = false) : syncPrimarySubViewport st = st := by
  unfold syncPrimarySubViewport
  dsimp only
  rw [if_neg (by simp [h])]

lemma syncSecondarySubViewport_skip (st : SceneState × SceneState)
    (h : st.1.changeTracker.secondarySubViewportChanged = false) : syncSecondarySubViewport st = st := by
  unfold syncSecondarySubViewport
  dsimp only
  rw [if_neg (by simp [h])]

lemma syncSelectionQueryPosition_skip (st : SceneState × SceneState)
    (h : st.1.changeTracker.selectionQueryPositionChanged = false) : syncSelectionQueryPosition st = st := by
  unfold syncSelectionQueryPosition
  dsimp only
  rw [if_neg (by simp [h])]

lemma syncCameraFlag_skip (st : SceneState × SceneState)
    (h : st.1.changeTracker.cameraChanged = false) : syncCameraFlag st = st := by
  unfold syncCameraFlag
  dsimp only
  rw [if_neg (by simp [h])]

lemma syncLightFlag_skip (st : SceneState × SceneState)
    (h : st.1.changeTracker.lightChanged = false) : syncLightFlag st = st := by
  unfold syncLightFlag
  dsimp only
  rw [if_neg (by simp [h])]

lemma syncSlicingActivated_skip (st : SceneState × SceneState)
    (h : st.1.changeTracker.slicingActivatedChanged = false) : syncSlicingActivated st = st := by
  unfold syncSlicingActivated
  dsimp only
  rw [if_neg (by simp [h])]

lemma syncDevicePixelRatio_skip (st : SceneState × SceneState)
    (h : st.1.changeTracker.devicePixelRatioChanged = false) : syncDevicePixelRatio st = st := by
  unfold syncDevicePixelRatio
  dsimp only
  rw [if_neg (by simp [h])]

lemma sync_fst (s t : SceneState) :
    (sync s t).1 = { s with changeTracker := allFlagsClear, sceneDirty := false } := by
  unfold sync
  dsimp only
  simp only [syncDevicePixelRatio_fst, syncSlicingActivated_fst, syncLightFlag_fst,
    syncCameraFlag_fst, syncSelectionQueryPosition_fst, syncSecondarySubViewport_fst,
    syncPrimarySubViewport_fst, syncSubViewportOrder_fst, syncViewport_fst,
    syncWindowSize_fst]
  rfl

lemma sync_snd_sceneDirty (s t : SceneState) : (sync s t).2.sceneDirty = false := by
  unfold sync
  rfl

/-- C1 counterexample: a caller whose only set flag is windowSizeChanged,
synced into a receiver with a different window size, leaves the
receiver's viewportChanged flag set after the call (the window-size copy
goes through the receiver's setter, whose updateGLViewport marks the
receiver's viewport dirty, and no later branch clears it) — contradicting
"after the call every dirty flag is cleared on both". -/
theorem C1_counterexample :
    ¬ ((sync sceneC1Caller sceneC1Other).2.changeTracker = allFlagsClear) := by
  decide

/-- C1 amended: sync copies to `other` exactly those of the attributes
(window size, viewport, sub-viewport order, selection query position,
slicing flag, device pixel ratio) whose dirty flag is set in the caller
and leaves them unchanged otherwise (the sub-viewport rectangles are
copied through other's setters and so may additionally be recomputed when
the viewport or slicing flag is copied); after the call the caller's
attributes are unchanged and every one of the caller's dirty flags is
cleared, and other's scene dirty bit is cleared — but dirty flags of
`other` that the copy's setters set may remain set. -/
theorem C1_sync_amended (s t : SceneState) :
    (sync s t).1 = { s with changeTracker := allFlagsClear, sceneDirty := false } ∧
    (sync s t).2.windowSize =
      (if s.changeTracker.windowSizeChanged then s.windowSize else t.windowSize) ∧
    (sync s t).2.viewport =
      (if s.changeTracker.viewportChanged then s.viewport else t.viewport) ∧
    (sync s t).2.isSecondarySubviewOnTop =
      (if s.changeTracker.subViewportOrderChanged then s.isSecondarySubviewOnTop
       else t.isSecondarySubviewOnTop) ∧
    (sync s t).2.selectionQueryPosition =
      (if s.changeTracker.selectionQueryPositionChanged then s.selectionQueryPosition
       else t.selectionQueryPosition) ∧
    (sync s t).2.isSlicingActive =
      (if s.changeTracker.slicingActivatedChanged then s.isSlicingActive
       else t.isSlicingActive) ∧
    (sync s t).2.devicePixelRatio =
      (if s.changeTracker.devicePixelRatioChanged then s.devicePixelRatio
       else t.devicePixelRatio) ∧
    (sync s t).2.sceneDirty = false := by
  refine ⟨sync_fst s t, ?_, ?_, ?_, ?_, ?_, ?_, sync_snd_sceneDirty s t⟩ <;>
    · unfold sync
      dsimp only
      simp

/-- C7: running sync a second time with no intervening mutation changes
nothing: the first call cleared every dirty flag of the caller, so every
branch of the second call is skipped and both states are returned as they
were. -/
theorem C7_sync_idempotent (s t : SceneState) :
    sync (sync s t).1 (sync s t).2 = sync s t := by
  have h1 := sync_fst s t
  have hd2 : (sync s t).2.sceneDirty = false := sync_snd_sceneDirty s t
  generalize hu : sync s t = u at h1 hd2 ⊢
  have hd1 : u.1.sceneDirty = false := by rw [h1]
  have hflags : u.1.changeTracker = allFlagsClear := by rw [h1]
  conv_lhs => unfold sync
  dsimp only
  rw [syncWindowSize_skip _ (by simp [hflags, allFlagsClear]),
    syncViewport_skip _ (by simp [hflags, allFlagsClear]),
    syncSubViewportOrder_skip _ (by simp [hflags, allFlagsClear]),
    syncPrimarySubViewport_skip _ (by simp [hflags, allFlagsClear]),
    syncSecondarySubViewport_skip _ (by simp [hflags, allFlagsClear]),
    syncSelectionQueryPosition_skip _ (by simp [hflags, allFlagsClear]),
    syncCameraFlag_skip _ (by simp [hflags, allFlagsClear]),
    syncLightFlag_skip _ (by simp [hflags, allFlagsClear]),
    syncSlicingActivated_skip _ (by simp [hflags, allFlagsClear]),
    syncDevicePixelRatio_skip _ (by simp [hflags, allFlagsClear])]
  dsimp only
  rw [sceneSetDirtyNoop _ hd1, sceneSetDirtyNoop _ hd2]

lemma parentOf_setParent (ps : List (Nat × Option Nat)) (id p : Nat) :
    parentOf (setParent ps id p) id = some p := by
  unfold parentOf setParent
  rw [List.find?_cons_of_pos _ (by simp)]

/-- C8: passing a null camera or light fails the assertion; a non-null
instance is re-parented under the scene in every successful call; and
assigning a camera different from the current one moves the rotation /
zoom notification connections from the old camera to the new one. -/
theorem C8_activeCameraLight (w : SceneObjects) (cam lgt old : Nat) :
    (setActiveCamera w none = Except.error "Q_ASSERT(camera)") ∧
    (setActiveLight w none = Except.error "Q_ASSERT(light)") ∧
    (∀ w2 sigs, setActiveCamera w (some cam) = Except.ok (w2, sigs) →
      parentOf w2.parents cam = some w.sceneId) ∧
    (∀ w2 sigs, setActiveLight w (some lgt) = Except.ok (w2, sigs) →
      parentOf w2.parents lgt = some w.sceneId) ∧
    (w.camera = some old → old ≠ cam →
      ∀ w2 sigs, setActiveCamera w (some cam) = Except.ok (w2, sigs) →
        w2.connectedCameras =
          cam :: w.connectedCameras.filter (fun i => i != old)) := by
  refine ⟨rfl, rfl, ?_, ?_, ?_⟩
  · intro w2 sigs h
    unfold setActiveCamera at h
    dsimp only at h
    split_ifs at h with h1 h2 h3 <;>
      (simp only [Except.ok.injEq, Prod.mk.injEq] at h
       obtain ⟨hw, -⟩ := h
       subst hw) <;>
      first
        | exact parentOf_setParent w.parents cam w.sceneId
        | (push_neg at h1; exact h1)
  · intro w2 sigs h
    unfold setActiveLight at h
    dsimp only at h
    split_ifs at h with h1 h2 h3 <;>
      (simp only [Except.ok.injEq, Prod.mk.injEq] at h
       obtain ⟨hw, -⟩ := h
       subst hw) <;>
      first
        | exact parentOf_setParent w.parents lgt w.sceneId
        | (push_neg at h1; exact h1)
  · intro hcam hne w2 sigs h
    unfold setActiveCamera at h
    dsimp only at h
    split_ifs at h with h1 h2 h3
    · simp only [Except.ok.injEq, Prod.mk.injEq] at h
      obtain ⟨hw, -⟩ := h
      subst hw
      simp [hcam]
    · push_neg at h2
      try dsimp only at h2
      rw [hcam] at h2
      simp only [Option.some.injEq] at h2
      exact absurd h2 hne
    · simp only [Except.ok.injEq, Prod.mk.injEq] at h
      obtain ⟨hw, -⟩ := h
      subst hw
      simp [hcam]
    · push_neg at h3
      try dsimp only at h3
      rw [hcam] at h3
      simp only [Option.some.injEq] at h3
      exact absurd h3 hne

/-- Witness for C8: a concrete world where assigning camera 3 (not yet
parented, different from the active camera 1) re-parents it and moves the
connections, and the null assignments fail. -/
theorem C8_activeCameraLight_witness :
    (setActiveCamera objWorld none = Except.error "Q_ASSERT(camera)") ∧
    (∀ w2 sigs, setActiveCamera objWorld (some 3) = Except.ok (w2, sigs) →
      parentOf w2.parents 3 = some objWorld.sceneId) ∧
    (∀ w2 sigs, setActiveCamera objWorld (some 3) = Except.ok (w2, sigs) →
      w2.connectedCameras =
        3 :: objWorld.connectedCameras.filter (fun i => i != 1)) := by
  refine ⟨(C8_activeCameraLight objWorld 3 4 1).1,
    (C8_activeCameraLight objWorld 3 4 1).2.2.1,
    (C8_activeCameraLight objWorld 3 4 1).2.2.2.2 (by decide) (by decide)⟩

/-- C10: assigning a new (different) light emits exactly the
active-light-changed notification and no render request, while assigning
a new camera emits the active-camera-changed notification followed by a
render request. -/
theorem C10_lightNoRenderSignal (w : SceneObjects) (cam lgt : Nat) :
    (w.light ≠ some lgt →
      ∀ w2 sigs, setActiveLight w (some lgt) = Except.ok (w2, sigs) →
        sigs = [ObjSignal.activeLightChanged lgt] ∧ ObjSignal.needRender ∉ sigs) ∧
    (w.camera ≠ some cam →
      ∀ w2 sigs, setActiveCamera w (some cam) = Except.ok (w2, sigs) →
        sigs = [ObjSignal.activeCameraChanged cam, ObjSignal.needRender]) := by
  constructor
  · intro hne w2 sigs h
    unfold setActiveLight at h
    dsimp only at h
    split_ifs at h with h1 h2 h3 <;>
      first
        | (simp only [Except.ok.injEq, Prod.mk.injEq] at h
           obtain ⟨-, hs⟩ := h
           subst hs
           simp)
        | (push_neg at h2; exact absurd h2 hne)
        | (push_neg at h3; exact absurd h3 hne)
  · intro hne w2 sigs h
    unfold setActiveCamera at h
    dsimp only at h
    split_ifs at h with h1 h2 h3 <;>
      first
        | (simp only [Except.ok.injEq, Prod.mk.injEq] at h
           obtain ⟨-, hs⟩ := h
           exact hs.symm)
        | (push_neg at h2; exact absurd h2 hne)
        | (push_neg at h3; exact absurd h3 hne)

/-- Witness for C10: assigning light 4 (different from the active light
2) emits only the light notification; assigning camera 3 emits the camera
notification and a render request. -/
theorem C10_lightNoRenderSignal_witness :
    (∀ w2 sigs, setActiveLight objWorld (some 4) = Except.ok (w2, sigs) →
      sigs = [ObjSignal.activeLightChanged 4] ∧ ObjSignal.needRender ∉ sigs) ∧
    (∀ w2 sigs, setActiveCamera objWorld (some 3) = Except.ok (w2, sigs) →
      sigs = [ObjSignal.activeCameraChanged 3, ObjSignal.needRender]) :=
  ⟨(C10_lightNoRenderSignal objWorld 3 4).1 (by decide),
   (C10_lightNoRenderSignal objWorld 3 4).2 (by decide)⟩

lemma getElem_rowMap_outside (vs : List Vec3) (rr cc : Nat) (g : Nat → Vec3)
    (startRow endRow row column : Nat) (hlen : vs.length = rr * cc)
    (hr : row < rr) (hc : column < cc) (hout : row < startRow ∨ endRow ≤ row) :
    ((List.range (rr * cc)).map (fun i =>
      if startRow ≤ i / cc ∧ i / cc < endRow then g i
      else vs.getD i ⟨0, 0, 0⟩))[row * cc + column]? =
    vs[row * cc + column]? := by
  have hCpos : 0 < cc := by omega
  have hidx : row * cc + column < rr * cc := by
    have h1 : row * cc + cc ≤ rr * cc := by
      have h2 : (row + 1) * cc ≤ rr * cc := Nat.mul_le_mul_right cc (by omega)
      calc row * cc + cc = (row + 1) * cc := by ring
        _ ≤ rr * cc := h2
    omega
  have hdiv : (row * cc + column) / cc = row := by
    rw [Nat.mul_comm row cc, Nat.mul_add_div hCpos, Nat.div_eq_of_lt hc, Nat.add_zero]
  have hidx' : row * cc + column < vs.length := by omega
  rw [List.getElem?_map, List.getElem?_range hidx]
  rw [List.getElem?_eq_getElem hidx']
  simp only [Option.map_some']
  rw [hdiv, if_neg (by omega)]
  rw [List.getD_eq_getElem?_getD, List.getElem?_eq_getElem hidx']
  rfl

/-- C9: `updateSmoothRows` (and likewise `updateCoarseRows`) on the row
range [startRow, endRow) leaves the stored vertex of every grid cell
whose row lies outside the range exactly equal to its pre-update value
(stated for a well-formed vertex buffer of rows*columns entries). -/
theorem C9_updateRows_outside_unchanged (o : SurfaceObject) (dataArray : List (List ℚ))
    (startRow endRow : Nat) (yRange yMin : ℚ) (column row : Nat)
    (hlen : o.vertices.length = o.rows * o.columns)
    (hout : row < startRow ∨ endRow ≤ row) :
    vertexAt (updateSmoothRows o dataArray startRow endRow yRange yMin) column row =
      vertexAt o column row ∧
    vertexAt (updateCoarseRows o dataArray startRow endRow yRange yMin) column row =
      vertexAt o column row := by
  constructor
  · unfold vertexAt updateSmoothRows
    dsimp only
    split
    · next hin =>
      simp only [Bool.and_eq_true, decide_eq_true_eq] at hin
      exact getElem_rowMap_outside _ _ _ _ _ _ _ _ hlen hin.1 hin.2 hout
    · rfl
  · unfold vertexAt updateCoarseRows
    dsimp only
    split
    · next hin =>
      simp only [Bool.and_eq_true, decide_eq_true_eq] at hin
      exact getElem_rowMap_outside _ _ _ _ _ _ _ _ hlen hin.1 hin.2 hout
    · rfl

/-- Witness for C9: on the 10×10 grid, updating rows [2,4) leaves the
vertex of cell (column 3, row 5) unchanged, for both the smooth and the
coarse update. -/
theorem C9_updateRows_outside_unchanged_witness :
    surface10.vertices.length = surface10.rows * surface10.columns ∧
    (5 < 2 ∨ 4 ≤ 5) ∧
    vertexAt (updateSmoothRows surface10 data10 2 4 1 0) 3 5 = vertexAt surface10 3 5 ∧
    vertexAt (updateCoarseRows surface10 data10 2 4 1 0) 3 5 = vertexAt surface10 3 5 := by
  have h := C9_updateRows_outside_unchanged surface10 data10 2 4 1 0 3 5
    (by simp [surface10]) (by omega)
  exact ⟨by simp [surface10], by omega, h.1, h.2⟩
